import Mathlib

/-!
# The deploy processor of the BRC-20 indexer

A shallow embedding of `indexer/brc20_deploy.go` (`ProcessDeploy` and the
helpers it calls) together with the pieces of the repository it depends on.

Conventions of the embedding.

* A Go `map[string]V` is a total lookup function `String → Option V`
  (`none` for an absent key); the maps of the indexer are assumed allocated.
* A Go `error` is an `Option String`: `none` is `nil`, `some msg` is
  `errors.New(msg)`.
* A pointer to a record is the record itself.  Where the source assigns
  through a pointer, or a map reference, that a map holds under a key, the
  embedding updates in place the value the map holds under that key
  (`GoMap.modify`); it is the earlier store that makes the value reachable.
* The ticker check `utils.GetValidUniqueLowerTickerTicker` and the decoder
  `body.Unmarshal` are not among the sources: they are parameters of
  `ProcessDeploy`, and every general theorem holds for all of them.  The key
  the ticker check returns is what the source calls `uniqueLowerTicker`.
* `log.Printf` has no effect on the indexer state and is left out.
* Go strings are modelled by Lean strings; `len` is the length in bytes.
-/

namespace Indexer

/-! ## Go primitives -/

/-- A Go `error` value: `none` is `nil`. -/
abbrev GoError := Option String

/-- A Go `map[string]V`, as its lookup function. -/
abbrev GoMap (V : Type) := String → Option V

/-- The map returned by `make(map[string]V)`. -/
def GoMap.empty {V : Type} : GoMap V := fun _ => none

/-- The assignment `m[k] = v`. -/
def GoMap.set {V : Type} (m : GoMap V) (k : String) (v : V) : GoMap V :=
  fun k' => if k' = k then some v else m k'

/-- An assignment through a pointer, or a map reference, that the map holds
under `k`: the value held there is updated in place.  Nothing is inserted
when the map holds nothing under `k`. -/
def GoMap.modify {V : Type} (m : GoMap V) (k : String) (f : V → V) : GoMap V :=
  fun k' => if k' = k then (m k').map f else m k'

/-- Go's `len(s)` on a string: the number of bytes. -/
def len (s : String) : Nat := s.utf8ByteSize

/-- Does `sub` occur in `cs` as a contiguous block? -/
def containsChars : List Char → List Char → Bool
  | [], sub => sub.isEmpty
  | c :: cs, sub => sub.isPrefixOf (c :: cs) || containsChars cs sub

/-- Go's `strings.Contains(s, substr)`. -/
def Contains (s substr : String) : Bool := containsChars s.data substr.data

/-- A non-empty run of the decimal digits `0`..`9`. -/
def isDigits (cs : List Char) : Bool := !cs.isEmpty && cs.all Char.isDigit

/-- The number written by a run of decimal digits. -/
def digitsVal (cs : List Char) : Nat :=
  cs.foldl (fun acc c => 10 * acc + (c.toNat - 48)) 0

/-- Go's `strconv.ParseUint(s, 10, 64)`: a non-empty run of decimal digits
with no sign, whose value fits in 64 bits; `none` is a non-nil error. -/
def ParseUint (s : String) : Option Nat :=
  if isDigits s.data then
    if digitsVal s.data < 2 ^ 64 then some (digitsVal s.data) else none
  else none

/-! ## The decimal package -/

namespace decimal

/-- Modelled from the spec: the type `decimal.Decimal` is not among the
sources.  "Integer mantissa at a fixed scale": the amount denoted is
`mantissa / 10 ^ scale`. -/
structure Decimal where
  mantissa : Int
  scale : Nat
deriving DecidableEq, Repr

/-- Go's `math.MaxUint64`. -/
def MaxUint64 : Nat := 2 ^ 64 - 1

/-- Modelled from the spec: `decimal.NewDecimalFromString` is not among the
sources.  "`parse(string, scale)` fails with InvalidFormat on non-numeric
input or excess fractional digits": the input is an optional minus sign, a
non-empty run of digits and, optionally, a point followed by a non-empty run
of at most `scale` digits; the result is the exact value at scale `scale`. -/
def NewDecimalFromString (s : String) (scale : Nat) : Option Decimal :=
  let neg : Bool := match s.data with
    | '-' :: _ => true
    | _ => false
  let body : List Char := match s.data with
    | '-' :: r => r
    | r => r
  let sgn : Int := if neg then -1 else 1
  let ip := body.takeWhile (fun c => c != '.')
  match body.dropWhile (fun c => c != '.') with
  | [] =>
    if isDigits ip then some ⟨sgn * (digitsVal ip * 10 ^ scale : Nat), scale⟩ else none
  | _ :: fp =>
    if isDigits ip && isDigits fp && decide (fp.length ≤ scale) then
      some ⟨sgn * (digitsVal ip * 10 ^ scale + digitsVal fp * 10 ^ (scale - fp.length) : Nat),
        scale⟩
    else none

/-- Modelled from the spec: `Decimal.Sign` is not among the sources; the sign
of the amount, `-1`, `0` or `1`. -/
def Decimal.Sign (d : Decimal) : Int := Int.sign d.mantissa

/-- Modelled from the spec: "the protocol's 64-bit amount ceiling".  The
ceiling bounds the amount: the largest amount is `MaxUint64`, so at scale
`scale` the largest mantissa is `MaxUint64 * 10 ^ scale`. -/
def ceilingMantissa (scale : Nat) : Int := ((MaxUint64 * 10 ^ scale : Nat) : Int)

/-- Modelled from the spec: `Decimal.IsOverflowUint64` is not among the
sources; the value "exceeds the protocol's 64-bit amount ceiling". -/
def Decimal.IsOverflowUint64 (d : Decimal) : Bool :=
  decide (ceilingMantissa d.scale < d.mantissa)

/-- Modelled from the spec: `Decimal.GetMaxUint64` is not among the sources;
the "maximum representable value" constructor, at the receiver's scale. -/
def Decimal.GetMaxUint64 (d : Decimal) : Decimal := ⟨ceilingMantissa d.scale, d.scale⟩

end decimal

/-! ## The model package: events, ticker info, balances, history -/

/-- Modelled from the spec: the type `model.InscriptionBRC20DeployContent`
is not among the sources.  The decoded body of a deploy inscription:
"operation, ticker, max/limit/decimals, self-mint flag", under the field
names `brc20_deploy.go` reads. -/
structure InscriptionBRC20DeployContent where
  Proto : String
  Operation : String
  BRC20Tick : String
  BRC20Max : String
  BRC20Limit : String
  BRC20Decimal : String
  BRC20SelfMint : String
deriving DecidableEq, Repr

/-- Modelled from the spec: the type `model.InscriptionBRC20Data` is not
among the sources.  An inscription event: "creator script, content bytes,
block height, unique sequence key, inscription number", under the field names
`brc20_deploy.go` reads. -/
structure InscriptionBRC20Data where
  ContentBody : List UInt8
  PkScript : String
  Height : Nat
  InscriptionNumber : Int
  CreateIdxKey : String
deriving DecidableEq, Repr

/-- Modelled from the spec: the type of `tinfo.Data`
(`model.InscriptionBRC20InfoResp`) is not among the sources.  The textual
deploy record kept with a ticker; the fields are those `initializeTickInfo`
assigns, with the ticker and operation given to the constructor. -/
structure InscriptionBRC20InfoResp where
  Operation : String
  BRC20Tick : String
  BRC20Max : String
  BRC20Limit : String
  BRC20Minted : String
  BRC20Decimal : String
  BRC20SelfMint : String
deriving DecidableEq, Repr

/-- Modelled from the spec: the type `model.InscriptionBRC20TickInfo` is not
among the sources.  The deploy metadata of a ticker: the fields
`brc20_deploy.go` assigns (`Data`, `SelfMint`, `Decimal`, `Max`, `Limit`,
`InscriptionNumberStart`) or reads (`Ticker`), and the spec's creation height
and creator.  `Max` and `Limit` are pointers in the source: `none` is the nil
pointer. -/
structure InscriptionBRC20TickInfo where
  Ticker : String
  Data : InscriptionBRC20InfoResp
  SelfMint : Bool
  Decimal : Nat
  Max : Option decimal.Decimal
  Limit : Option decimal.Decimal
  InscriptionNumberStart : Int
  Height : Nat
  PkScript : String
deriving DecidableEq, Repr

/-- Modelled from the spec: `model.NewInscriptionBRC20TickInfo` is not among
the sources.  A fresh TickInfo for the ticker and operation, carrying the
creator script and creation height of the event; every field that
`ProcessDeploy` assigns afterwards starts at its Go zero value. -/
def NewInscriptionBRC20TickInfo (tick operation : String) (data : InscriptionBRC20Data) :
    InscriptionBRC20TickInfo :=
  { Ticker := tick
    Data :=
      { Operation := operation, BRC20Tick := tick, BRC20Max := "", BRC20Limit := "",
        BRC20Minted := "", BRC20Decimal := "", BRC20SelfMint := "" }
    SelfMint := false
    Decimal := 0
    Max := none
    Limit := none
    InscriptionNumberStart := 0
    Height := data.Height
    PkScript := data.PkScript }

/-- Modelled from the spec: the type `model.BRC20TokenInfo` is not among the
sources.  A registry entry, with the fields `brc20_deploy.go` assigns. -/
structure BRC20TokenInfo where
  Ticker : String
  Deploy : InscriptionBRC20TickInfo
  History : List Nat
  UpdateHeight : Nat
deriving DecidableEq, Repr

/-- Modelled from the spec: the type `model.BRC20TokenBalance` is not among
the sources.  A balance entry: the fields `brc20_deploy.go` assigns (`Ticker`,
`PkScript`, `History`) and the spec's "(available, overall)" amounts, which
are pointers; `none` is the nil pointer of an entry that was never credited. -/
structure BRC20TokenBalance where
  Ticker : String
  PkScript : String
  AvailableBalance : Option decimal.Decimal
  OverallBalance : Option decimal.Decimal
  History : List Nat
deriving DecidableEq, Repr

/-- Modelled from the spec: the kinds of history record the spec names
("deploy", "mint", "inscribe-transfer", "send", "receive"). -/
inductive HistoryType where
  | inscribeDeploy
  | inscribeMint
  | inscribeTransfer
  | send
  | receive
deriving DecidableEq, Repr

/-- Modelled from the spec: the constant
`constant.BRC20_HISTORY_TYPE_N_INSCRIBE_DEPLOY` is not among the sources; the
type of a "deploy" history record. -/
def BRC20_HISTORY_TYPE_N_INSCRIBE_DEPLOY : HistoryType := HistoryType.inscribeDeploy

/-- Modelled from the spec: `model.BRC20History` is not among the sources.
"Immutable {type, validity flag, height, snapshot/delta, source event}". -/
structure BRC20History where
  Kind : HistoryType
  Valid : Bool
  IsTransfer : Bool
  Height : Nat
  Snapshot : InscriptionBRC20TickInfo
  Balance : Option BRC20TokenBalance
  Source : InscriptionBRC20Data
deriving DecidableEq, Repr

/-- Modelled from the spec: `model.NewBRC20History` is not among the sources;
it builds the record from its arguments, at the height of the event. -/
def NewBRC20History (historyType : HistoryType) (isValid isTransfer : Bool)
    (tinfo : InscriptionBRC20TickInfo) (bal : Option BRC20TokenBalance)
    (data : InscriptionBRC20Data) : BRC20History :=
  { Kind := historyType, Valid := isValid, IsTransfer := isTransfer, Height := data.Height,
    Snapshot := tinfo, Balance := bal, Source := data }

/-- Modelled from the spec: the type `model.BRC20UserHistory` is not among
the sources.  The per-address history list, with the field
`brc20_deploy.go` appends to. -/
structure BRC20UserHistory where
  History : List Nat
deriving DecidableEq, Repr

/-! ## Configuration -/

/-- The options of package `conf` that the deploy processor reads.
`TICKS_ENABLED` is the variable of `conf/conf.go` (empty unless `cmd/main.go`
sets it from the environment); `ENABLE_SELF_MINT_HEIGHT` is read by the
processor but declared outside the sources, so it is a parameter here. -/
structure Conf where
  TICKS_ENABLED : String
  ENABLE_SELF_MINT_HEIGHT : Nat
deriving DecidableEq, Repr

/-! ## The indexer state -/

/-- Modelled from the spec: the declaration of `BRC20ModuleIndexer` is not
among the sources.  The fields are those `brc20_deploy.go` reads or writes;
`HistoryData` and `UserAllHistory` are the stores behind
`UpdateHistoryHeightAndGetHistoryIndex` and `GetBRC20HistoryByUser`. -/
structure BRC20ModuleIndexer where
  EnableHistory : Bool
  InscriptionsTickerInfoMap : GoMap BRC20TokenInfo
  UserTokensBalanceData : GoMap (GoMap BRC20TokenBalance)
  TokenUsersBalanceData : GoMap (GoMap BRC20TokenBalance)
  InscriptionsValidBRC20DataMap : GoMap InscriptionBRC20InfoResp
  AllHistory : List Nat
  HistoryData : List BRC20History
  UserAllHistory : GoMap BRC20UserHistory

/-- Modelled from the spec: `UpdateHistoryHeightAndGetHistoryIndex` is not
among the sources.  The history store is append-only and its order is the
processing order: the record is appended and its position is returned. -/
def UpdateHistoryHeightAndGetHistoryIndex (g : BRC20ModuleIndexer) (historyObj : BRC20History) :
    BRC20ModuleIndexer × Nat :=
  ({ g with HistoryData := g.HistoryData ++ [historyObj] }, g.HistoryData.length)

/-- Modelled from the spec: `GetBRC20HistoryByUser` is not among the
sources.  The per-address history list, created empty on first reference. -/
def GetBRC20HistoryByUser (g : BRC20ModuleIndexer) (pkScript : String) :
    BRC20ModuleIndexer × BRC20UserHistory :=
  match g.UserAllHistory pkScript with
  | some userHistory => (g, userHistory)
  | none =>
    ({ g with UserAllHistory := g.UserAllHistory.set pkScript { History := [] } },
      { History := [] })

/-! ## indexer/brc20_deploy.go -/

/-- Gate 1 of `validateTicker` fires: a 5-byte ticker without the self-mint
flag, or below the self-mint height. -/
def selfMintGateFails (conf : Conf) (body : InscriptionBRC20DeployContent)
    (data : InscriptionBRC20Data) : Prop :=
  len body.BRC20Tick = 5 ∧
    (body.BRC20SelfMint ≠ "true" ∨ data.Height < conf.ENABLE_SELF_MINT_HEIGHT)

instance (conf : Conf) (body : InscriptionBRC20DeployContent) (data : InscriptionBRC20Data) :
    Decidable (selfMintGateFails conf body data) :=
  inferInstanceAs (Decidable (len body.BRC20Tick = 5 ∧
      (body.BRC20SelfMint ≠ "true" ∨ data.Height < conf.ENABLE_SELF_MINT_HEIGHT)))

/-- Gate 2 of `validateTicker` fires: an allow-list is configured and the
ticker contains a space or does not occur in the list. -/
def allowListGateFails (conf : Conf) (uniqueLowerTicker : String) : Prop :=
  conf.TICKS_ENABLED ≠ "" ∧
    (Contains uniqueLowerTicker " " = true ∨ Contains conf.TICKS_ENABLED uniqueLowerTicker = false)

instance (conf : Conf) (uniqueLowerTicker : String) :
    Decidable (allowListGateFails conf uniqueLowerTicker) :=
  inferInstanceAs (Decidable (conf.TICKS_ENABLED ≠ "" ∧
      (Contains uniqueLowerTicker " " = true ∨
        Contains conf.TICKS_ENABLED uniqueLowerTicker = false)))

/-- Gate 3 of `validateTicker` fires: the ticker is a key of the registry. -/
def alreadyRegistered (g : BRC20ModuleIndexer) (uniqueLowerTicker : String) : Prop :=
  (g.InscriptionsTickerInfoMap uniqueLowerTicker).isSome = true

instance (g : BRC20ModuleIndexer) (uniqueLowerTicker : String) :
    Decidable (alreadyRegistered g uniqueLowerTicker) :=
  inferInstanceAs (Decidable ((g.InscriptionsTickerInfoMap uniqueLowerTicker).isSome = true))

/-- The method `validateTicker`.  Each of the first three gates ends in
`return nil`, the same value as the final `return nil`. -/
def validateTicker (conf : Conf) (g : BRC20ModuleIndexer) (body : InscriptionBRC20DeployContent)
    (uniqueLowerTicker : String) (data : InscriptionBRC20Data) : GoError :=
  if selfMintGateFails conf body data then none
  else if allowListGateFails conf uniqueLowerTicker then none
  else if alreadyRegistered g uniqueLowerTicker then none
  else if body.BRC20Max = "" then some "deploy, but max missing"
  else none

/-- The method `initializeTickInfo`. -/
def initializeTickInfo (body : InscriptionBRC20DeployContent) (data : InscriptionBRC20Data) :
    InscriptionBRC20TickInfo :=
  let tinfo := NewInscriptionBRC20TickInfo body.BRC20Tick body.Operation data
  let tinfo := { tinfo with Data := { tinfo.Data with BRC20Max := body.BRC20Max } }
  let tinfo := { tinfo with Data := { tinfo.Data with BRC20Limit := body.BRC20Limit } }
  let tinfo := { tinfo with Data := { tinfo.Data with BRC20Decimal := body.BRC20Decimal } }
  let tinfo := { tinfo with Data := { tinfo.Data with BRC20Minted := "0" } }
  let tinfo := { tinfo with InscriptionNumberStart := data.InscriptionNumber }
  if len body.BRC20Tick = 5 ∧ body.BRC20SelfMint = "true" then
    { tinfo with SelfMint := true, Data := { tinfo.Data with BRC20SelfMint := "true" } }
  else tinfo

/-- The method `validateTickDetails`.  It fills `Decimal`, `Max` and `Limit`
of the TickInfo it is given; on an error the caller drops that TickInfo, so
the result is either the error or the completed TickInfo. -/
def validateTickDetails (tinfo : InscriptionBRC20TickInfo)
    (body : InscriptionBRC20DeployContent) : Except String InscriptionBRC20TickInfo :=
  match ParseUint tinfo.Data.BRC20Decimal with
  | none => Except.error "deploy, but dec invalid"
  | some decimalValue =>
    if decimalValue > 18 then Except.error "deploy, but dec invalid"
    else
      let tinfo := { tinfo with Decimal := decimalValue }
      match decimal.NewDecimalFromString body.BRC20Max tinfo.Decimal with
      | none => Except.error "deploy, but max invalid"
      | some max =>
        if max.Sign < 0 ∨ max.IsOverflowUint64 = true then Except.error "deploy, but max invalid"
        else if max.Sign = 0 ∧ tinfo.SelfMint = false then
          Except.error "deploy, but max invalid (0)"
        else
          let tinfo :=
            if max.Sign = 0 then { tinfo with Max := some max.GetMaxUint64 }
            else { tinfo with Max := some max }
          match decimal.NewDecimalFromString tinfo.Data.BRC20Limit tinfo.Decimal with
          | none => Except.error "deploy, but limit invalid"
          | some lim =>
            if lim.Sign < 0 ∨ lim.IsOverflowUint64 = true then
              Except.error "deploy, but limit invalid"
            else if lim.Sign = 0 ∧ tinfo.SelfMint = false then
              Except.error "deploy, but limit invalid (0)"
            else if lim.Sign = 0 then Except.ok { tinfo with Limit := some lim.GetMaxUint64 }
            else Except.ok { tinfo with Limit := some lim }

/-- The method `storeTokenInfo`.  The source reads `body.BRC20Tick`, the
body that `ProcessDeploy` decoded; it is passed explicitly. -/
def storeTokenInfo (g : BRC20ModuleIndexer) (body : InscriptionBRC20DeployContent)
    (uniqueLowerTicker : String) (tinfo : InscriptionBRC20TickInfo) :
    BRC20ModuleIndexer × BRC20TokenInfo :=
  let tokenInfo : BRC20TokenInfo :=
    { Ticker := body.BRC20Tick, Deploy := tinfo, History := [], UpdateHeight := 0 }
  ({ g with InscriptionsTickerInfoMap := g.InscriptionsTickerInfoMap.set uniqueLowerTicker tokenInfo },
    tokenInfo)

/-- The method `getUserTokens`: the per-address ticker map, created empty on
first reference. -/
def getUserTokens (g : BRC20ModuleIndexer) (pkScript : String) :
    BRC20ModuleIndexer × GoMap BRC20TokenBalance :=
  match g.UserTokensBalanceData pkScript with
  | some tokens => (g, tokens)
  | none =>
    ({ g with UserTokensBalanceData := g.UserTokensBalanceData.set pkScript GoMap.empty },
      GoMap.empty)

/-- The method `updateUserAndTokenData`.  The source reads `body.BRC20Tick`
and `tinfo` of `ProcessDeploy`: the body is passed explicitly and `tinfo` is
`tokenInfo.Deploy`.

Three objects are reached through pointers here.  `tokenInfo` is the pointer
`storeTokenInfo` stored under `uniqueLowerTicker`, so the assignments to
`tokenInfo.History` and `tokenInfo.UpdateHeight` update the entry the
registry holds there.  `userTokens` is the map `getUserTokens` found, or
stored, under the creator in `UserTokensBalanceData`, so
`userTokens[uniqueLowerTicker] = tokenBalance` updates the map held there.
`userHistory` is the list `GetBRC20HistoryByUser` found, or stored, under the
creator.  This method assigns none of these three map slots itself. -/
def updateUserAndTokenData (g : BRC20ModuleIndexer) (body : InscriptionBRC20DeployContent)
    (data : InscriptionBRC20Data) (uniqueLowerTicker : String) (tokenInfo : BRC20TokenInfo) :
    BRC20ModuleIndexer :=
  let tokenBalance : BRC20TokenBalance :=
    { Ticker := body.BRC20Tick, PkScript := data.PkScript, AvailableBalance := none,
      OverallBalance := none, History := [] }
  let r : BRC20ModuleIndexer × BRC20TokenBalance :=
    if g.EnableHistory = true then
      let historyObj := NewBRC20History BRC20_HISTORY_TYPE_N_INSCRIBE_DEPLOY true false
        tokenInfo.Deploy none data
      let gh := UpdateHistoryHeightAndGetHistoryIndex g historyObj
      let history := gh.2
      let tokenBalance := { tokenBalance with History := tokenBalance.History ++ [history] }
      -- tokenInfo.History = append(tokenInfo.History, history)
      let g1 := { gh.1 with
        InscriptionsTickerInfoMap :=
          gh.1.InscriptionsTickerInfoMap.modify uniqueLowerTicker
            (fun ti => { ti with History := ti.History ++ [history] }) }
      let gu := GetBRC20HistoryByUser g1 data.PkScript
      -- userHistory.History = append(userHistory.History, history)
      let g2 := { gu.1 with
        UserAllHistory :=
          gu.1.UserAllHistory.modify data.PkScript
            (fun userHistory => { History := userHistory.History ++ [history] }) }
      ({ g2 with AllHistory := g2.AllHistory ++ [history] }, tokenBalance)
    else (g, tokenBalance)
  let g := r.1
  let tokenBalance := r.2
  -- tokenInfo.UpdateHeight = data.Height
  let g := { g with
    InscriptionsTickerInfoMap :=
      g.InscriptionsTickerInfoMap.modify uniqueLowerTicker
        (fun ti => { ti with UpdateHeight := data.Height }) }
  let gt := getUserTokens g data.PkScript
  -- userTokens[uniqueLowerTicker] = tokenBalance
  let g := { gt.1 with
    UserTokensBalanceData :=
      gt.1.UserTokensBalanceData.modify data.PkScript
        (fun userTokens => userTokens.set uniqueLowerTicker tokenBalance) }
  let tokenUsers : GoMap BRC20TokenBalance := GoMap.empty.set data.PkScript tokenBalance
  let g := { g with TokenUsersBalanceData := g.TokenUsersBalanceData.set uniqueLowerTicker tokenUsers }
  { g with
    InscriptionsValidBRC20DataMap :=
      g.InscriptionsValidBRC20DataMap.set data.CreateIdxKey tokenInfo.Deploy.Data }

/-- The method `ProcessDeploy`: the state after the call and the returned
error.  Two helpers it calls are not among the sources and are parameters:
`GetValidUniqueLowerTickerTicker`, the ticker check of package `utils`,
which returns the registry key of a valid ticker (`none` is an error), and
`Unmarshal`, the decoder `body.Unmarshal` of the model package (`none` is a
decoding error). -/
def ProcessDeploy (conf : Conf)
    (GetValidUniqueLowerTickerTicker : String → Option String)
    (Unmarshal : List UInt8 → Option InscriptionBRC20DeployContent)
    (g : BRC20ModuleIndexer) (data : InscriptionBRC20Data) : BRC20ModuleIndexer × GoError :=
  match Unmarshal data.ContentBody with
  | none => (g, none)
  | some body =>
    match GetValidUniqueLowerTickerTicker body.BRC20Tick with
    | none => (g, none)
    | some uniqueLowerTicker =>
      match validateTicker conf g body uniqueLowerTicker data with
      | some err => (g, some err)
      | none =>
        match validateTickDetails (initializeTickInfo body data) body with
        | Except.error err => (g, some err)
        | Except.ok tinfo =>
          let st := storeTokenInfo g body uniqueLowerTicker tinfo
          (updateUserAndTokenData st.1 body data uniqueLowerTicker st.2, none)

/-! ## Vocabulary of the properties -/

/-- The amount `validateTickDetails` stores for a parsed amount: the ceiling
in place of zero, the amount itself otherwise. -/
def effectiveAmount (x : decimal.Decimal) : decimal.Decimal :=
  if x.mantissa = 0 then x.GetMaxUint64 else x

/-- A decimals field that is a base-10 unsigned integer in the range 0..18. -/
def validDecimals (s : String) : Prop := isDigits s.data = true ∧ digitsVal s.data ≤ 18

instance (s : String) : Decidable (validDecimals s) :=
  inferInstanceAs (Decidable (isDigits s.data = true ∧ digitsVal s.data ≤ 18))

/-- An amount field that must be refused at scale `d`: it fails to parse, is
negative, exceeds the amount ceiling, or is zero while the ticker is not
self-mint. -/
def refusedAmount (s : String) (d : Nat) (selfMint : Bool) : Prop :=
  match decimal.NewDecimalFromString s d with
  | none => True
  | some x =>
    x.mantissa < 0 ∨ decimal.ceilingMantissa d < x.mantissa ∨ (x.mantissa = 0 ∧ selfMint = false)

/-! ## Concrete inputs -/

/-- The indexer before any event, with history switched off. -/
def emptyIndexer : BRC20ModuleIndexer :=
  { EnableHistory := false
    InscriptionsTickerInfoMap := GoMap.empty
    UserTokensBalanceData := GoMap.empty
    TokenUsersBalanceData := GoMap.empty
    InscriptionsValidBRC20DataMap := GoMap.empty
    AllHistory := []
    HistoryData := []
    UserAllHistory := GoMap.empty }

/-- A configuration with no allow-list and self-mint enabled from height
837090. -/
def conf0 : Conf := { TICKS_ENABLED := "", ENABLE_SELF_MINT_HEIGHT := 837090 }

/-- A configuration whose allow-list names the tickers `ordi` and `sats`. -/
def confAllow : Conf := { TICKS_ENABLED := "ordi sats", ENABLE_SELF_MINT_HEIGHT := 837090 }

/-- A deploy body with the given ticker, max, limit, decimals and self-mint
flag. -/
def deployBody (tick max lim dec selfMint : String) : InscriptionBRC20DeployContent :=
  { Proto := "brc-20", Operation := "deploy", BRC20Tick := tick, BRC20Max := max,
    BRC20Limit := lim, BRC20Decimal := dec, BRC20SelfMint := selfMint }

/-- The decoder that reads every content as the given body. -/
def decodeAs (body : InscriptionBRC20DeployContent) :
    List UInt8 → Option InscriptionBRC20DeployContent :=
  fun _ => some body

/-- An event of the given creator, height, inscription number and position
key. -/
def eventAt (pkScript : String) (height : Nat) (num : Int) (key : String) :
    InscriptionBRC20Data :=
  { ContentBody := [], PkScript := pkScript, Height := height, InscriptionNumber := num,
    CreateIdxKey := key }

/-- Modelled from the spec: `utils.GetValidUniqueLowerTickerTicker` is not
among the sources and is a parameter of `ProcessDeploy`; this is the instance
the concrete runs below use, on ASCII tickers only.  A ticker is "≤4 bytes,
or exactly 5 bytes for self-mint": an ASCII ticker of such a length is valid
and its key is the ticker with the letters `A`..`Z` in lower case; every
other ticker, any with a non-ASCII character included, is refused. -/
def asciiTickerKey (ticker : String) : Option String :=
  if ticker.data.all (fun c => decide (c.toNat < 128)) = true ∧
      (len ticker ≤ 4 ∨ len ticker = 5) then
    some ⟨ticker.data.map Char.toLower⟩
  else none

/-- The indexer after the deploy of "ABCD" with max 1000, limit 100 and 2
decimals, inscription number 1, on the empty indexer. -/
def indexerWithAbcd : BRC20ModuleIndexer :=
  (ProcessDeploy conf0 asciiTickerKey (decodeAs (deployBody "ABCD" "1000" "100" "2" "")) emptyIndexer
    (eventAt "alice" 800000 1 "k1")).1

/-- The parameters of a registry entry that a deploy declares: max, limit,
decimals, self-mint flag, deploying inscription number. -/
structure DeployParameters where
  Max : Option decimal.Decimal
  Limit : Option decimal.Decimal
  Decimal : Nat
  SelfMint : Bool
  InscriptionNumberStart : Int
deriving DecidableEq, Repr

/-- The declared parameters of a registry entry. -/
def declared (ti : BRC20TokenInfo) : DeployParameters :=
  { Max := ti.Deploy.Max, Limit := ti.Deploy.Limit, Decimal := ti.Deploy.Decimal,
    SelfMint := ti.Deploy.SelfMint, InscriptionNumberStart := ti.Deploy.InscriptionNumberStart }

/-! ## Vocabulary of the ledger and history properties -/

/-- The read `g.UserTokensBalanceData[address][ticker]`: the entry of the
address-to-ticker index, `none` when it is absent. -/
def userTokenEntry (g : BRC20ModuleIndexer) (address ticker : String) :
    Option BRC20TokenBalance :=
  (g.UserTokensBalanceData address).bind (fun tokens => tokens ticker)

/-- The read `g.TokenUsersBalanceData[ticker][address]`: the entry of the
ticker-to-address index, `none` when it is absent. -/
def tokenUserEntry (g : BRC20ModuleIndexer) (ticker address : String) :
    Option BRC20TokenBalance :=
  (g.TokenUsersBalanceData ticker).bind (fun users => users address)

/-- The balance entry `updateUserAndTokenData` opens for the creator: the
ticker and creator script, no amounts, and the reference of the deploy record
when history is enabled. -/
def deployBalance (g : BRC20ModuleIndexer) (body : InscriptionBRC20DeployContent)
    (data : InscriptionBRC20Data) : BRC20TokenBalance :=
  { Ticker := body.BRC20Tick, PkScript := data.PkScript, AvailableBalance := none,
    OverallBalance := none,
    History := if g.EnableHistory = true then [g.HistoryData.length] else [] }

/-- The amount a Decimal denotes, `mantissa / 10 ^ scale`. -/
def decimal.Decimal.amount (d : decimal.Decimal) : ℚ := (d.mantissa : ℚ) / 10 ^ d.scale

/-- Modelled from the spec: the entry a deploy opens, whose amounts the
source leaves at the Go zero value (the nil pointer), is "a zero-balance
ledger entry": an unset amount is the amount zero. -/
def amountOf (x : Option decimal.Decimal) : ℚ :=
  match x with
  | none => 0
  | some d => d.amount

/-- The balance invariant of one entry: 0 ≤ available ≤ overall. -/
def balanceInvariant (b : BRC20TokenBalance) : Prop :=
  0 ≤ amountOf b.AvailableBalance ∧ amountOf b.AvailableBalance ≤ amountOf b.OverallBalance

/-- The minted-so-far of a ticker: the text `Data.BRC20Minted`, which
`initializeTickInfo` sets to "0", read at the ticker's scale. -/
def mintedSoFar (tinfo : InscriptionBRC20TickInfo) : Option decimal.Decimal :=
  decimal.NewDecimalFromString tinfo.Data.BRC20Minted tinfo.Decimal

/-- The supply invariant of one ticker: minted-so-far ≤ max, both present. -/
def supplyInvariant (tinfo : InscriptionBRC20TickInfo) : Prop :=
  match mintedSoFar tinfo, tinfo.Max with
  | some minted, some max => minted.amount ≤ max.amount
  | _, _ => False

/-- The two balance indices are mirror images: an entry is present under
(address, ticker) in one exactly when it is present in the other, and they
hold the same entry. -/
def mirrored (g : BRC20ModuleIndexer) : Prop :=
  ∀ address ticker, userTokenEntry g address ticker = tokenUserEntry g ticker address

/-- Modelled from the spec: the consumer loop is not among the sources.
"The indexer consumes and applies them strictly one at a time", and a bad
event does not halt the stream: the state after a sequence of deploy events. -/
def processDeploys (conf : Conf)
    (GetValidUniqueLowerTickerTicker : String → Option String)
    (Unmarshal : List UInt8 → Option InscriptionBRC20DeployContent)
    (g : BRC20ModuleIndexer) (events : List InscriptionBRC20Data) : BRC20ModuleIndexer :=
  events.foldl (fun st data => (ProcessDeploy conf GetValidUniqueLowerTickerTicker Unmarshal st data).1) g

/-- The state an applied deploy leaves: `storeTokenInfo` followed by
`updateUserAndTokenData`, as in the last lines of `ProcessDeploy`. -/
def applied (g : BRC20ModuleIndexer) (body : InscriptionBRC20DeployContent)
    (data : InscriptionBRC20Data) (uniqueLowerTicker : String)
    (tinfo : InscriptionBRC20TickInfo) : BRC20ModuleIndexer :=
  updateUserAndTokenData (storeTokenInfo g body uniqueLowerTicker tinfo).1 body data
    uniqueLowerTicker (storeTokenInfo g body uniqueLowerTicker tinfo).2

/-- The indexer before any event, with history switched on. -/
def historyIndexer : BRC20ModuleIndexer := { emptyIndexer with EnableHistory := true }

/-- The indexer, with history, after the deploy of "ABCD" by alice. -/
def historyIndexerWithAbcd : BRC20ModuleIndexer :=
  (ProcessDeploy conf0 asciiTickerKey (decodeAs (deployBody "ABCD" "1000" "100" "2" "")) historyIndexer
    (eventAt "alice" 800000 1 "k1")).1

/-- A balance entry of bob for "abcd": 50.00 available of 100.00 overall. -/
def bobEntry : BRC20TokenBalance :=
  { Ticker := "abcd", PkScript := "bob", AvailableBalance := some ⟨5000, 2⟩,
    OverallBalance := some ⟨10000, 2⟩, History := [] }

/-- An indexer in which "abcd" is not registered and bob holds an entry for
it, in both balance indices. -/
def indexerWithHolder : BRC20ModuleIndexer :=
  { emptyIndexer with
    UserTokensBalanceData := GoMap.empty.set "bob" (GoMap.empty.set "abcd" bobEntry)
    TokenUsersBalanceData := GoMap.empty.set "abcd" (GoMap.empty.set "bob" bobEntry) }

/-! ## Lemmas on the helpers -/


theorem GoMap.set_same {V : Type} (m : GoMap V) (k : String) (v : V) : m.set k v k = some v := by
  simp [GoMap.set]

theorem GoMap.set_other {V : Type} (m : GoMap V) (k k' : String) (v : V) (h : k' ≠ k) :
    m.set k v k' = m k' := by
  simp [GoMap.set, h]

theorem Sign_neg_iff (d : decimal.Decimal) : d.Sign < 0 ↔ d.mantissa < 0 := by
  unfold decimal.Decimal.Sign
  rcases lt_trichotomy d.mantissa 0 with h | h | h
  · simp [Int.sign_eq_neg_one_of_neg h, h]
  · simp [h]
  · simp [Int.sign_eq_one_of_pos h, h.le, not_lt.mpr h.le]

theorem Sign_zero_iff (d : decimal.Decimal) : d.Sign = 0 ↔ d.mantissa = 0 := by
  unfold decimal.Decimal.Sign
  exact Int.sign_eq_zero_iff_zero

theorem IsOverflowUint64_false_iff (d : decimal.Decimal) :
    d.IsOverflowUint64 = false ↔ d.mantissa ≤ decimal.ceilingMantissa d.scale := by
  simp [decimal.Decimal.IsOverflowUint64]

theorem ceilingMantissa_pos (scale : Nat) : 0 < decimal.ceilingMantissa scale := by
  unfold decimal.ceilingMantissa decimal.MaxUint64
  have h : 0 < (2 ^ 64 - 1) * 10 ^ scale := Nat.mul_pos (by norm_num) (by positivity)
  exact_mod_cast h

theorem NewDecimalFromString_scale (s : String) (scale : Nat) (x : decimal.Decimal)
    (h : decimal.NewDecimalFromString s scale = some x) : x.scale = scale := by
  unfold decimal.NewDecimalFromString at h
  simp only at h
  split at h
  · split at h
    · cases h; rfl
    · cases h
  · split at h
    · cases h; rfl
    · cases h

theorem NewDecimalFromString_zero (scale : Nat) :
    decimal.NewDecimalFromString "0" scale = some ⟨0, scale⟩ := by
  simp [decimal.NewDecimalFromString, isDigits, digitsVal]

theorem NewDecimalFromString_empty (scale : Nat) :
    decimal.NewDecimalFromString "" scale = none := by
  simp [decimal.NewDecimalFromString, isDigits]

theorem ParseUint_some (s : String) (d : Nat) (h : ParseUint s = some d) :
    isDigits s.data = true ∧ digitsVal s.data = d := by
  unfold ParseUint at h
  split at h
  · split at h
    · cases h; exact ⟨by assumption, rfl⟩
    · cases h
  · cases h

theorem validateTickDetails_ok (tinfo ti : InscriptionBRC20TickInfo)
    (body : InscriptionBRC20DeployContent)
    (h : validateTickDetails tinfo body = Except.ok ti) :
    ∃ d mx lm, ParseUint tinfo.Data.BRC20Decimal = some d ∧ d ≤ 18 ∧
      decimal.NewDecimalFromString body.BRC20Max d = some mx ∧
      0 ≤ mx.mantissa ∧ mx.mantissa ≤ decimal.ceilingMantissa mx.scale ∧
      (mx.mantissa = 0 → tinfo.SelfMint = true) ∧
      decimal.NewDecimalFromString tinfo.Data.BRC20Limit d = some lm ∧
      0 ≤ lm.mantissa ∧ lm.mantissa ≤ decimal.ceilingMantissa lm.scale ∧
      (lm.mantissa = 0 → tinfo.SelfMint = true) ∧
      ti = { tinfo with
        Decimal := d, Max := some (effectiveAmount mx), Limit := some (effectiveAmount lm) } := by
  unfold validateTickDetails at h
  cases hd : ParseUint tinfo.Data.BRC20Decimal with
  | none => simp [hd] at h
  | some d =>
    simp only [hd] at h
    by_cases hd18 : d > 18
    · simp [hd18] at h
    · simp only [hd18, if_false] at h
      cases hm : decimal.NewDecimalFromString body.BRC20Max d with
      | none => simp [hm] at h
      | some mx =>
        simp only [hm] at h
        by_cases hmb : mx.Sign < 0 ∨ mx.IsOverflowUint64 = true
        · simp [hmb] at h
        · simp only [hmb, if_false] at h
          by_cases hmz : mx.Sign = 0 ∧ tinfo.SelfMint = false
          · simp [hmz] at h
          · simp only [hmz, if_false] at h
            have hl0 : (if mx.Sign = 0 then
                  { tinfo with Decimal := d, Max := some mx.GetMaxUint64 }
                else { tinfo with Decimal := d, Max := some mx }) =
                { tinfo with Decimal := d, Max := some (effectiveAmount mx) } := by
              unfold effectiveAmount
              by_cases hz : mx.mantissa = 0
              · simp [hz, (Sign_zero_iff mx).2 hz]
              · simp [hz, mt (Sign_zero_iff mx).1 hz]
            rw [hl0] at h
            simp only at h
            cases hl : decimal.NewDecimalFromString tinfo.Data.BRC20Limit d with
            | none => simp [hl] at h
            | some lm =>
              simp only [hl] at h
              by_cases hlb : lm.Sign < 0 ∨ lm.IsOverflowUint64 = true
              · simp [hlb] at h
              · simp only [hlb, if_false] at h
                by_cases hlz : lm.Sign = 0 ∧ tinfo.SelfMint = false
                · simp [hlz] at h
                · simp only [hlz, if_false] at h
                  push_neg at hmb hlb
                  refine ⟨d, mx, lm, rfl, Nat.le_of_not_gt hd18, hm, ?_, ?_, ?_, hl, ?_, ?_, ?_, ?_⟩
                  · exact not_lt.mp (mt (Sign_neg_iff mx).2 (not_lt.mpr hmb.1))
                  · exact (IsOverflowUint64_false_iff mx).1 (by simpa using hmb.2)
                  · intro hz
                    by_contra hs
                    exact hmz ⟨(Sign_zero_iff mx).2 hz, by simpa using hs⟩
                  · exact not_lt.mp (mt (Sign_neg_iff lm).2 (not_lt.mpr hlb.1))
                  · exact (IsOverflowUint64_false_iff lm).1 (by simpa using hlb.2)
                  · intro hz
                    by_contra hs
                    exact hlz ⟨(Sign_zero_iff lm).2 hz, by simpa using hs⟩
                  · by_cases hz : lm.mantissa = 0
                    · simp [(Sign_zero_iff lm).2 hz] at h
                      simp [effectiveAmount, hz, ← h]
                    · simp [mt (Sign_zero_iff lm).1 hz] at h
                      simp [effectiveAmount, hz, ← h]

theorem validateTickDetails_of_valid (tinfo : InscriptionBRC20TickInfo)
    (body : InscriptionBRC20DeployContent) (d : Nat) (mx lm : decimal.Decimal)
    (hd : ParseUint tinfo.Data.BRC20Decimal = some d) (hd18 : d ≤ 18)
    (hm : decimal.NewDecimalFromString body.BRC20Max d = some mx)
    (hm0 : 0 ≤ mx.mantissa) (hmc : mx.mantissa ≤ decimal.ceilingMantissa mx.scale)
    (hmz : mx.mantissa = 0 → tinfo.SelfMint = true)
    (hl : decimal.NewDecimalFromString tinfo.Data.BRC20Limit d = some lm)
    (hl0 : 0 ≤ lm.mantissa) (hlc : lm.mantissa ≤ decimal.ceilingMantissa lm.scale)
    (hlz : lm.mantissa = 0 → tinfo.SelfMint = true) :
    validateTickDetails tinfo body =
      Except.ok { tinfo with
        Decimal := d, Max := some (effectiveAmount mx), Limit := some (effectiveAmount lm) } := by
  have hd18' : ¬ d > 18 := Nat.not_lt.mpr hd18
  have hmb : ¬ (mx.Sign < 0 ∨ mx.IsOverflowUint64 = true) := by
    rintro (h | h)
    · exact absurd ((Sign_neg_iff mx).1 h) (not_lt.mpr hm0)
    · rw [(IsOverflowUint64_false_iff mx).2 hmc] at h; cases h
  have hlb : ¬ (lm.Sign < 0 ∨ lm.IsOverflowUint64 = true) := by
    rintro (h | h)
    · exact absurd ((Sign_neg_iff lm).1 h) (not_lt.mpr hl0)
    · rw [(IsOverflowUint64_false_iff lm).2 hlc] at h; cases h
  have hmz' : ¬ (mx.Sign = 0 ∧ tinfo.SelfMint = false) := by
    rintro ⟨h1, h2⟩
    rw [hmz ((Sign_zero_iff mx).1 h1)] at h2; cases h2
  have hlz' : ¬ (lm.Sign = 0 ∧ tinfo.SelfMint = false) := by
    rintro ⟨h1, h2⟩
    rw [hlz ((Sign_zero_iff lm).1 h1)] at h2; cases h2
  unfold validateTickDetails
  simp only [hd, hd18', if_false, hm, hmb, hmz']
  by_cases hz : mx.mantissa = 0
  · have hs := (Sign_zero_iff mx).2 hz
    simp only [hs, if_true, hl, hlb, hlz', if_false]
    by_cases hz2 : lm.mantissa = 0
    · simp [(Sign_zero_iff lm).2 hz2, effectiveAmount, hz, hz2]
    · simp [mt (Sign_zero_iff lm).1 hz2, effectiveAmount, hz, hz2]
  · have hs := mt (Sign_zero_iff mx).1 hz
    simp only [hs, if_false, hl, hlb, hlz']
    by_cases hz2 : lm.mantissa = 0
    · simp [(Sign_zero_iff lm).2 hz2, effectiveAmount, hz, hz2]
    · simp [mt (Sign_zero_iff lm).1 hz2, effectiveAmount, hz, hz2]

theorem initializeTickInfo_Data (body : InscriptionBRC20DeployContent)
    (data : InscriptionBRC20Data) :
    (initializeTickInfo body data).Data.BRC20Decimal = body.BRC20Decimal ∧
    (initializeTickInfo body data).Data.BRC20Limit = body.BRC20Limit ∧
    (initializeTickInfo body data).Data.BRC20Max = body.BRC20Max ∧
    (initializeTickInfo body data).Data.BRC20Minted = "0" ∧
    (initializeTickInfo body data).InscriptionNumberStart = data.InscriptionNumber := by
  unfold initializeTickInfo
  split <;> simp [NewInscriptionBRC20TickInfo]

theorem initializeTickInfo_SelfMint (body : InscriptionBRC20DeployContent)
    (data : InscriptionBRC20Data) :
    (initializeTickInfo body data).SelfMint = true ↔
      (len body.BRC20Tick = 5 ∧ body.BRC20SelfMint = "true") := by
  unfold initializeTickInfo
  split <;> simp_all [NewInscriptionBRC20TickInfo]

theorem validateTicker_eq_some (conf : Conf) (g : BRC20ModuleIndexer)
    (body : InscriptionBRC20DeployContent) (t : String) (data : InscriptionBRC20Data)
    (hg1 : ¬ selfMintGateFails conf body data) (hg2 : ¬ allowListGateFails conf t)
    (hg3 : ¬ alreadyRegistered g t) (hmax : body.BRC20Max = "") :
    validateTicker conf g body t data = some "deploy, but max missing" := by
  simp [validateTicker, hg1, hg2, hg3, hmax]

theorem validateTicker_eq_none (conf : Conf) (g : BRC20ModuleIndexer)
    (body : InscriptionBRC20DeployContent) (t : String) (data : InscriptionBRC20Data)
    (hmax : body.BRC20Max ≠ "") : validateTicker conf g body t data = none := by
  unfold validateTicker
  split
  · rfl
  · split
    · rfl
    · split
      · rfl
      · simp [hmax]

theorem GoMap.set_set {V : Type} (m : GoMap V) (k : String) (a b : V) :
    (m.set k a).set k b = m.set k b := by
  funext k'
  simp only [GoMap.set]
  split <;> rfl

theorem GoMap.modify_set {V : Type} (m : GoMap V) (k : String) (v : V) (f : V → V) :
    (m.set k v).modify k f = m.set k (f v) := by
  funext k'
  simp only [GoMap.modify, GoMap.set]
  split <;> simp

theorem GoMap.modify_eq_set {V : Type} (m : GoMap V) (k : String) (v : V) (f : V → V)
    (h : m k = some v) : m.modify k f = m.set k (f v) := by
  funext k'
  simp only [GoMap.modify, GoMap.set]
  split
  · rename_i hk
    rw [hk, h]
    rfl
  · rfl

/-- The registry after an applied deploy: the new entry under the deployed
ticker, every other key as before. -/
theorem applied_registry (g : BRC20ModuleIndexer) (body : InscriptionBRC20DeployContent)
    (data : InscriptionBRC20Data) (t : String) (tinfo : InscriptionBRC20TickInfo) :
    (applied g body data t tinfo).InscriptionsTickerInfoMap =
      g.InscriptionsTickerInfoMap.set t
        { Ticker := body.BRC20Tick, Deploy := tinfo,
          History := if g.EnableHistory = true then [g.HistoryData.length] else [],
          UpdateHeight := data.Height } := by
  unfold applied updateUserAndTokenData storeTokenInfo
  cases hE : g.EnableHistory <;> cases hU : g.UserTokensBalanceData data.PkScript <;>
    cases hH : g.UserAllHistory data.PkScript <;>
    simp [getUserTokens, GetBRC20HistoryByUser, UpdateHistoryHeightAndGetHistoryIndex, hE, hU, hH,
      GoMap.modify_set, GoMap.set_set]

/-- The fields of the indexer after an applied deploy, other than the
registry. -/
theorem applied_fields (g : BRC20ModuleIndexer) (body : InscriptionBRC20DeployContent)
    (data : InscriptionBRC20Data) (t : String) (tinfo : InscriptionBRC20TickInfo) :
    (applied g body data t tinfo).EnableHistory = g.EnableHistory ∧
    (applied g body data t tinfo).UserTokensBalanceData =
      g.UserTokensBalanceData.set data.PkScript
        (((g.UserTokensBalanceData data.PkScript).getD GoMap.empty).set t
          (deployBalance g body data)) ∧
    (applied g body data t tinfo).TokenUsersBalanceData =
      g.TokenUsersBalanceData.set t (GoMap.empty.set data.PkScript (deployBalance g body data)) ∧
    (applied g body data t tinfo).InscriptionsValidBRC20DataMap =
      g.InscriptionsValidBRC20DataMap.set data.CreateIdxKey tinfo.Data ∧
    (applied g body data t tinfo).AllHistory =
      g.AllHistory ++ (if g.EnableHistory = true then [g.HistoryData.length] else []) ∧
    (applied g body data t tinfo).HistoryData =
      g.HistoryData ++
        (if g.EnableHistory = true then
          [NewBRC20History BRC20_HISTORY_TYPE_N_INSCRIBE_DEPLOY true false tinfo none data]
        else []) ∧
    (applied g body data t tinfo).UserAllHistory =
      (if g.EnableHistory = true then
        g.UserAllHistory.set data.PkScript
          { History :=
              ((g.UserAllHistory data.PkScript).map (fun u => u.History)).getD [] ++
                [g.HistoryData.length] }
      else g.UserAllHistory) := by
  unfold applied updateUserAndTokenData storeTokenInfo deployBalance
  cases hE : g.EnableHistory <;> cases hU : g.UserTokensBalanceData data.PkScript <;>
    cases hH : g.UserAllHistory data.PkScript <;>
    first
    | simp [getUserTokens, GetBRC20HistoryByUser, UpdateHistoryHeightAndGetHistoryIndex, hE, hU,
        hH, GoMap.modify_set, GoMap.set_set, GoMap.modify_eq_set _ _ _ _ hU,
        GoMap.modify_eq_set _ _ _ _ hH]
    | simp [getUserTokens, GetBRC20HistoryByUser, UpdateHistoryHeightAndGetHistoryIndex, hE, hU,
        hH, GoMap.modify_set, GoMap.set_set, GoMap.modify_eq_set _ _ _ _ hU]
    | simp [getUserTokens, GetBRC20HistoryByUser, UpdateHistoryHeightAndGetHistoryIndex, hE, hU,
        hH, GoMap.modify_set, GoMap.set_set, GoMap.modify_eq_set _ _ _ _ hH]
    | simp [getUserTokens, GetBRC20HistoryByUser, UpdateHistoryHeightAndGetHistoryIndex, hE, hU,
        hH, GoMap.modify_set, GoMap.set_set]

theorem applied_userTokenEntry (g : BRC20ModuleIndexer) (body : InscriptionBRC20DeployContent)
    (data : InscriptionBRC20Data) (t : String) (tinfo : InscriptionBRC20TickInfo)
    (a t' : String) :
    userTokenEntry (applied g body data t tinfo) a t' =
      if a = data.PkScript ∧ t' = t then some (deployBalance g body data)
      else userTokenEntry g a t' := by
  unfold userTokenEntry
  rw [(applied_fields g body data t tinfo).2.1]
  by_cases ha : a = data.PkScript
  · subst ha
    by_cases ht : t' = t
    · simp [GoMap.set, ht]
    · cases hU : g.UserTokensBalanceData data.PkScript <;> simp [GoMap.set, ht, GoMap.empty]
  · simp [GoMap.set, ha]

theorem applied_tokenUserEntry (g : BRC20ModuleIndexer) (body : InscriptionBRC20DeployContent)
    (data : InscriptionBRC20Data) (t : String) (tinfo : InscriptionBRC20TickInfo)
    (a t' : String) :
    tokenUserEntry (applied g body data t tinfo) t' a =
      if t' = t then (if a = data.PkScript then some (deployBalance g body data) else none)
      else tokenUserEntry g t' a := by
  unfold tokenUserEntry
  rw [(applied_fields g body data t tinfo).2.2.1]
  by_cases ht : t' = t
  · by_cases ha : a = data.PkScript <;> simp [GoMap.set, ht, ha, GoMap.empty]
  · simp [GoMap.set, ht]

/-- The registry entry an accepted deploy leaves under its ticker. -/
theorem registry_after_accept (g : BRC20ModuleIndexer)
    (body : InscriptionBRC20DeployContent) (data : InscriptionBRC20Data) (t : String)
    (tinfo : InscriptionBRC20TickInfo) :
    ∃ ti, ti.Deploy = tinfo ∧
      (updateUserAndTokenData (storeTokenInfo g body t tinfo).1 body data t
        (storeTokenInfo g body t tinfo).2).InscriptionsTickerInfoMap t = some ti ∧
      ∀ t', t' ≠ t →
        (updateUserAndTokenData (storeTokenInfo g body t tinfo).1 body data t
          (storeTokenInfo g body t tinfo).2).InscriptionsTickerInfoMap t' =
          g.InscriptionsTickerInfoMap t' := by
  have h := applied_registry g body data t tinfo
  unfold applied at h
  rw [h]
  exact ⟨_, rfl, GoMap.set_same _ _ _, fun t' ht' => GoMap.set_other _ _ _ _ ht'⟩

/-- The two outcomes of `ProcessDeploy`: the state is untouched, or every
check passed and the deploy was applied with a nil error. -/
theorem ProcessDeploy_cases (conf : Conf)
    (GetValidUniqueLowerTickerTicker : String → Option String)
    (Unmarshal : List UInt8 → Option InscriptionBRC20DeployContent)
    (g : BRC20ModuleIndexer) (data : InscriptionBRC20Data) :
    (ProcessDeploy conf GetValidUniqueLowerTickerTicker Unmarshal g data).1 = g ∨
    ∃ body t tinfo, Unmarshal data.ContentBody = some body ∧
      GetValidUniqueLowerTickerTicker body.BRC20Tick = some t ∧
      validateTicker conf g body t data = none ∧
      validateTickDetails (initializeTickInfo body data) body = Except.ok tinfo ∧
      ProcessDeploy conf GetValidUniqueLowerTickerTicker Unmarshal g data =
        (updateUserAndTokenData (storeTokenInfo g body t tinfo).1 body data t
          (storeTokenInfo g body t tinfo).2, none) := by
  cases h1 : Unmarshal data.ContentBody with
  | none => left; simp [ProcessDeploy, h1]
  | some body =>
    cases h2 : GetValidUniqueLowerTickerTicker body.BRC20Tick with
    | none => left; simp [ProcessDeploy, h1, h2]
    | some t =>
      cases h3 : validateTicker conf g body t data with
      | some e => left; simp [ProcessDeploy, h1, h2, h3]
      | none =>
        cases h4 : validateTickDetails (initializeTickInfo body data) body with
        | error e => left; simp [ProcessDeploy, h1, h2, h3, h4]
        | ok tinfo =>
          right
          exact ⟨body, t, tinfo, rfl, h2, h3, h4, by simp [ProcessDeploy, h1, h2, h3, h4]⟩

theorem ProcessDeploy_accept (conf : Conf)
    (GetValidUniqueLowerTickerTicker : String → Option String)
    (Unmarshal : List UInt8 → Option InscriptionBRC20DeployContent)
    (g : BRC20ModuleIndexer) (data : InscriptionBRC20Data)
    (body : InscriptionBRC20DeployContent) (t : String) (tinfo : InscriptionBRC20TickInfo)
    (h1 : Unmarshal data.ContentBody = some body)
    (h2 : GetValidUniqueLowerTickerTicker body.BRC20Tick = some t)
    (h3 : validateTicker conf g body t data = none)
    (h4 : validateTickDetails (initializeTickInfo body data) body = Except.ok tinfo) :
    ProcessDeploy conf GetValidUniqueLowerTickerTicker Unmarshal g data =
      (updateUserAndTokenData (storeTokenInfo g body t tinfo).1 body data t
        (storeTokenInfo g body t tinfo).2, none) := by
  simp [ProcessDeploy, h1, h2, h3, h4]

/-- A non-nil error leaves the whole indexer as it was. -/
theorem ProcessDeploy_error_state (conf : Conf)
    (GetValidUniqueLowerTickerTicker : String → Option String)
    (Unmarshal : List UInt8 → Option InscriptionBRC20DeployContent)
    (g : BRC20ModuleIndexer) (data : InscriptionBRC20Data)
    (herr : (ProcessDeploy conf GetValidUniqueLowerTickerTicker Unmarshal g data).2 ≠ none) :
    (ProcessDeploy conf GetValidUniqueLowerTickerTicker Unmarshal g data).1 = g := by
  rcases ProcessDeploy_cases conf GetValidUniqueLowerTickerTicker Unmarshal g data with h | ⟨_, _, _, _, _, _, _, h⟩
  · exact h
  · rw [h] at herr; exact absurd rfl herr

/-! ## The claims -/


/-- C1 (the code departs from the claim): "abcd" is registered with max
1000.00, limit 100.00, 2 decimals by inscription 1; a second deploy of
"abcd" declaring max 5, limit 1, 0 decimals by inscription 2 is not a no-op:
the registry entry now carries the second event's parameters. -/
theorem C1_redeploy_replaces_registered_entry :
    (indexerWithAbcd.InscriptionsTickerInfoMap "abcd").map declared =
      some ⟨some ⟨100000, 2⟩, some ⟨10000, 2⟩, 2, false, 1⟩ ∧
    ((ProcessDeploy conf0 asciiTickerKey (decodeAs (deployBody "abcd" "5" "1" "0" "")) indexerWithAbcd
        (eventAt "bob" 800001 2 "k2")).1.InscriptionsTickerInfoMap "abcd").map declared =
      some ⟨some ⟨5, 0⟩, some ⟨1, 0⟩, 0, false, 2⟩ := by
  decide

/-- C2: when the ticker is not yet registered and a deploy of a
non-self-mint ticker passes every gate (decoded body, valid ticker, gates 1
to 4, decimals in 0..18, max and limit parsed at that scale, positive and
within the ceiling), the registry holds under the ticker's unique lower-case
key, the one `GetValidUniqueLowerTickerTicker` returns, a TickInfo whose
Decimal is the parsed decimals, whose Max and Limit are the
parsed max and limit, and whose minted-so-far is "0", the zero amount at that
scale. -/
theorem C2_deploy_registers_parsed_parameters (conf : Conf)
    (GetValidUniqueLowerTickerTicker : String → Option String)
    (Unmarshal : List UInt8 → Option InscriptionBRC20DeployContent)
    (g : BRC20ModuleIndexer) (data : InscriptionBRC20Data)
    (body : InscriptionBRC20DeployContent) (t : String) (d : Nat) (mx lm : decimal.Decimal)
    (hbody : Unmarshal data.ContentBody = some body)
    (htick : GetValidUniqueLowerTickerTicker body.BRC20Tick = some t)
    (hnsm : ¬ (len body.BRC20Tick = 5 ∧ body.BRC20SelfMint = "true"))
    (hg1 : ¬ selfMintGateFails conf body data)
    (hg2 : ¬ allowListGateFails conf t)
    (hg3 : ¬ alreadyRegistered g t)
    (hg4 : body.BRC20Max ≠ "")
    (hdec : ParseUint body.BRC20Decimal = some d) (hd18 : d ≤ 18)
    (hmx : decimal.NewDecimalFromString body.BRC20Max d = some mx)
    (hmx0 : 0 < mx.mantissa) (hmxc : mx.mantissa ≤ decimal.ceilingMantissa d)
    (hlm : decimal.NewDecimalFromString body.BRC20Limit d = some lm)
    (hlm0 : 0 < lm.mantissa) (hlmc : lm.mantissa ≤ decimal.ceilingMantissa d) :
    ∃ ti, (ProcessDeploy conf GetValidUniqueLowerTickerTicker Unmarshal g data).1.InscriptionsTickerInfoMap t = some ti ∧
      ti.Deploy.Decimal = d ∧ ti.Deploy.Max = some mx ∧ ti.Deploy.Limit = some lm ∧
      ti.Deploy.SelfMint = false ∧
      ti.Deploy.Data.BRC20Minted = "0" ∧
      decimal.NewDecimalFromString ti.Deploy.Data.BRC20Minted ti.Deploy.Decimal = some ⟨0, d⟩ := by
  -- gates 1 to 3 do not enter the proof: `validateTicker` answers nil
  -- whether or not they fire
  have _ := hg1
  have _ := hg2
  have _ := hg3
  obtain ⟨hD, hL, _, hM, _⟩ := initializeTickInfo_Data body data
  have hsm : (initializeTickInfo body data).SelfMint = false := by
    cases h : (initializeTickInfo body data).SelfMint
    · rfl
    · exact absurd ((initializeTickInfo_SelfMint body data).1 h) hnsm
  have hsx := NewDecimalFromString_scale _ _ _ hmx
  have hsl := NewDecimalFromString_scale _ _ _ hlm
  have hok := validateTickDetails_of_valid (initializeTickInfo body data) body d mx lm
    (by rw [hD]; exact hdec) hd18 hmx hmx0.le (by rw [hsx]; exact hmxc)
    (fun h => absurd h hmx0.ne') (by rw [hL]; exact hlm) hlm0.le (by rw [hsl]; exact hlmc)
    (fun h => absurd h hlm0.ne')
  have hacc := ProcessDeploy_accept conf GetValidUniqueLowerTickerTicker Unmarshal g data body t _ hbody htick
    (validateTicker_eq_none conf g body t data hg4) hok
  obtain ⟨ti, hti, hreg, _⟩ := registry_after_accept g body data t
    { initializeTickInfo body data with
      Decimal := d, Max := some (effectiveAmount mx), Limit := some (effectiveAmount lm) }
  refine ⟨ti, ?_, ?_, ?_, ?_, ?_, ?_, ?_⟩
  · rw [hacc]; exact hreg
  · rw [hti]
  · rw [hti]; simp [effectiveAmount, hmx0.ne']
  · rw [hti]; simp [effectiveAmount, hlm0.ne']
  · rw [hti]; exact hsm
  · rw [hti]; exact hM
  · rw [hti]; simp only [hM]; exact NewDecimalFromString_zero d

/-- C2, at the spec's scenario: ticker "ABCD", max "1000", limit "100",
decimals "2" on the empty indexer registers "abcd" with max 1000.00, limit
100.00 and minted 0. -/
theorem C2_deploy_registers_parsed_parameters_witness :
    ∃ ti, (ProcessDeploy conf0 asciiTickerKey (decodeAs (deployBody "ABCD" "1000" "100" "2" "")) emptyIndexer
        (eventAt "alice" 800000 1 "k1")).1.InscriptionsTickerInfoMap "abcd" = some ti ∧
      ti.Deploy.Decimal = 2 ∧ ti.Deploy.Max = some ⟨100000, 2⟩ ∧
      ti.Deploy.Limit = some ⟨10000, 2⟩ ∧ ti.Deploy.SelfMint = false ∧
      ti.Deploy.Data.BRC20Minted = "0" ∧
      decimal.NewDecimalFromString ti.Deploy.Data.BRC20Minted ti.Deploy.Decimal = some ⟨0, 2⟩ :=
  C2_deploy_registers_parsed_parameters conf0 asciiTickerKey (decodeAs (deployBody "ABCD" "1000" "100" "2" ""))
    emptyIndexer (eventAt "alice" 800000 1 "k1") (deployBody "ABCD" "1000" "100" "2" "") "abcd" 2
    ⟨100000, 2⟩ ⟨10000, 2⟩ rfl (by decide) (by decide) (by decide) (by decide) (by decide)
    (by decide) (by decide) (by decide) (by decide) (by decide) (by decide) (by decide)
    (by decide) (by decide)

/-- C4: if `ProcessDeploy` returns a non-nil error, the ticker registry, both
balance indices, the history log and the valid-data index are what they were
before the call. -/
theorem C4_error_leaves_indexer_unchanged (conf : Conf)
    (GetValidUniqueLowerTickerTicker : String → Option String)
    (Unmarshal : List UInt8 → Option InscriptionBRC20DeployContent)
    (g : BRC20ModuleIndexer) (data : InscriptionBRC20Data)
    (herr : (ProcessDeploy conf GetValidUniqueLowerTickerTicker Unmarshal g data).2 ≠ none) :
    (ProcessDeploy conf GetValidUniqueLowerTickerTicker Unmarshal g data).1.InscriptionsTickerInfoMap =
      g.InscriptionsTickerInfoMap ∧
    (ProcessDeploy conf GetValidUniqueLowerTickerTicker Unmarshal g data).1.UserTokensBalanceData = g.UserTokensBalanceData ∧
    (ProcessDeploy conf GetValidUniqueLowerTickerTicker Unmarshal g data).1.TokenUsersBalanceData = g.TokenUsersBalanceData ∧
    (ProcessDeploy conf GetValidUniqueLowerTickerTicker Unmarshal g data).1.AllHistory = g.AllHistory ∧
    (ProcessDeploy conf GetValidUniqueLowerTickerTicker Unmarshal g data).1.HistoryData = g.HistoryData ∧
    (ProcessDeploy conf GetValidUniqueLowerTickerTicker Unmarshal g data).1.UserAllHistory = g.UserAllHistory ∧
    (ProcessDeploy conf GetValidUniqueLowerTickerTicker Unmarshal g data).1.InscriptionsValidBRC20DataMap =
      g.InscriptionsValidBRC20DataMap := by
  rw [ProcessDeploy_error_state conf GetValidUniqueLowerTickerTicker Unmarshal g data herr]
  exact ⟨rfl, rfl, rfl, rfl, rfl, rfl, rfl⟩

/-- C4, at a deploy of "ABCD" with decimals "19" on the indexer that holds
"abcd": the call returns an error and the indexer is unchanged. -/
theorem C4_error_leaves_indexer_unchanged_witness :
    (ProcessDeploy conf0 asciiTickerKey (decodeAs (deployBody "ABCD" "1000" "100" "19" "")) indexerWithAbcd
        (eventAt "bob" 800001 2 "k2")).2 = some "deploy, but dec invalid" ∧
    (ProcessDeploy conf0 asciiTickerKey (decodeAs (deployBody "ABCD" "1000" "100" "19" "")) indexerWithAbcd
        (eventAt "bob" 800001 2 "k2")).1.InscriptionsTickerInfoMap =
      indexerWithAbcd.InscriptionsTickerInfoMap :=
  ⟨by decide,
    (C4_error_leaves_indexer_unchanged conf0 asciiTickerKey (decodeAs (deployBody "ABCD" "1000" "100" "19" ""))
      indexerWithAbcd (eventAt "bob" 800001 2 "k2") (by decide)).1⟩


/-- C5 (the code departs from the claim): a 5-byte ticker "ABCDE" deployed
without the self-mint flag, and one deployed with the flag below the
self-mint height, are both registered instead of rejected. -/
theorem C5_five_byte_gate_does_not_reject :
    selfMintGateFails conf0 (deployBody "ABCDE" "1000" "100" "2" "")
      (eventAt "alice" 900000 1 "k1") ∧
    ((ProcessDeploy conf0 asciiTickerKey (decodeAs (deployBody "ABCDE" "1000" "100" "2" "")) emptyIndexer
        (eventAt "alice" 900000 1 "k1")).1.InscriptionsTickerInfoMap "abcde").map declared =
      some ⟨some ⟨100000, 2⟩, some ⟨10000, 2⟩, 2, false, 1⟩ ∧
    selfMintGateFails conf0 (deployBody "ABCDE" "1000" "100" "2" "true")
      (eventAt "alice" 800000 1 "k1") ∧
    ((ProcessDeploy conf0 asciiTickerKey (decodeAs (deployBody "ABCDE" "1000" "100" "2" "true"))
        emptyIndexer (eventAt "alice" 800000 1 "k1")).1.InscriptionsTickerInfoMap "abcde").map
        declared =
      some ⟨some ⟨100000, 2⟩, some ⟨10000, 2⟩, 2, true, 1⟩ := by
  decide

/-- C6 (the code departs from the claim): with the allow-list "ordi sats",
the deploy of "ABCD", whose key "abcd" is not on the list, is registered
instead of rejected. -/
theorem C6_allow_list_gate_does_not_reject :
    allowListGateFails confAllow "abcd" ∧
    ((ProcessDeploy confAllow asciiTickerKey (decodeAs (deployBody "ABCD" "1000" "100" "2" "")) emptyIndexer
        (eventAt "alice" 800000 1 "k1")).1.InscriptionsTickerInfoMap "abcd").map declared =
      some ⟨some ⟨100000, 2⟩, some ⟨10000, 2⟩, 2, false, 1⟩ := by
  decide

/-- C7: when a deploy passes gates 1 to 3 (the 5-byte gate, the allow-list
gate, ticker not yet registered) and its max field is the empty string,
`ProcessDeploy` returns the error "deploy, but max missing" and the indexer
is unchanged. -/
theorem C7_missing_max_is_a_propagated_error (conf : Conf)
    (GetValidUniqueLowerTickerTicker : String → Option String)
    (Unmarshal : List UInt8 → Option InscriptionBRC20DeployContent)
    (g : BRC20ModuleIndexer) (data : InscriptionBRC20Data)
    (body : InscriptionBRC20DeployContent) (t : String)
    (hbody : Unmarshal data.ContentBody = some body)
    (htick : GetValidUniqueLowerTickerTicker body.BRC20Tick = some t)
    (hg1 : ¬ selfMintGateFails conf body data)
    (hg2 : ¬ allowListGateFails conf t)
    (hg3 : ¬ alreadyRegistered g t)
    (hmax : body.BRC20Max = "") :
    ProcessDeploy conf GetValidUniqueLowerTickerTicker Unmarshal g data = (g, some "deploy, but max missing") := by
  simp [ProcessDeploy, hbody, htick, validateTicker_eq_some conf g body t data hg1 hg2 hg3 hmax]

/-- C7, at a deploy of "ABCD" with no max on the empty indexer. -/
theorem C7_missing_max_is_a_propagated_error_witness :
    ProcessDeploy conf0 asciiTickerKey (decodeAs (deployBody "ABCD" "" "100" "2" "")) emptyIndexer
        (eventAt "alice" 800000 1 "k1") =
      (emptyIndexer, some "deploy, but max missing") :=
  C7_missing_max_is_a_propagated_error conf0 asciiTickerKey (decodeAs (deployBody "ABCD" "" "100" "2" ""))
    emptyIndexer (eventAt "alice" 800000 1 "k1") (deployBody "ABCD" "" "100" "2" "") "abcd" rfl
    (by decide) (by decide) (by decide) (by decide) rfl

/-- C8 (the code departs from the claim): an event that fails gate 1, gate 2
or gate 3 is not answered with nil when its decimals are invalid or its max
is missing: `ProcessDeploy` returns the errors of the later checks. -/
theorem C8_gate_failures_return_errors :
    selfMintGateFails conf0 (deployBody "ABCDE" "1000" "100" "19" "")
      (eventAt "alice" 900000 1 "k1") ∧
    (ProcessDeploy conf0 asciiTickerKey (decodeAs (deployBody "ABCDE" "1000" "100" "19" "")) emptyIndexer
        (eventAt "alice" 900000 1 "k1")).2 = some "deploy, but dec invalid" ∧
    allowListGateFails confAllow "abcd" ∧
    (ProcessDeploy confAllow asciiTickerKey (decodeAs (deployBody "ABCD" "" "100" "2" "")) emptyIndexer
        (eventAt "alice" 800000 1 "k1")).2 = some "deploy, but max invalid" ∧
    alreadyRegistered indexerWithAbcd "abcd" ∧
    (ProcessDeploy conf0 asciiTickerKey (decodeAs (deployBody "abcd" "" "1" "0" "")) indexerWithAbcd
        (eventAt "bob" 800001 2 "k2")).2 = some "deploy, but max invalid" := by
  decide

/-- C9: a deploy whose decimals field is not a base-10 unsigned integer in
0..18 leaves the indexer unchanged (nothing is registered); and every
registry entry that `ProcessDeploy` adds or replaces has Decimal at most 18. -/
theorem C9_decimals_in_range (conf : Conf)
    (GetValidUniqueLowerTickerTicker : String → Option String)
    (Unmarshal : List UInt8 → Option InscriptionBRC20DeployContent)
    (g : BRC20ModuleIndexer) (data : InscriptionBRC20Data) :
    (∀ body, Unmarshal data.ContentBody = some body → ¬ validDecimals body.BRC20Decimal →
      (ProcessDeploy conf GetValidUniqueLowerTickerTicker Unmarshal g data).1 = g) ∧
    (∀ t ti, (ProcessDeploy conf GetValidUniqueLowerTickerTicker Unmarshal g data).1.InscriptionsTickerInfoMap t = some ti →
      g.InscriptionsTickerInfoMap t ≠ some ti → ti.Deploy.Decimal ≤ 18) := by
  rcases ProcessDeploy_cases conf GetValidUniqueLowerTickerTicker Unmarshal g data with h | ⟨body, t0, tinfo, h1, _, _, h4, h5⟩
  · refine ⟨fun _ _ _ => h, ?_⟩
    intro t ti hti hne
    rw [h] at hti
    exact absurd hti hne
  · obtain ⟨d, mx, lm, hd, hd18, _, _, _, _, _, _, _, _, hT⟩ := validateTickDetails_ok _ _ _ h4
    refine ⟨?_, ?_⟩
    · intro body' hb hbad
      rw [h1] at hb
      cases hb
      rw [(initializeTickInfo_Data body data).1] at hd
      obtain ⟨hdig, hval⟩ := ParseUint_some _ _ hd
      exact absurd ⟨hdig, hval ▸ hd18⟩ hbad
    · intro t ti hti hne
      rw [h5] at hti
      obtain ⟨ti0, hdep, hreg, hother⟩ := registry_after_accept g body data t0 tinfo
      by_cases ht : t = t0
      · subst ht
        simp only [] at hti
        rw [hreg] at hti
        cases hti
        rw [hdep, hT]
        exact hd18
      · simp only [] at hti
        rw [hother t ht] at hti
        exact absurd hti hne

/-- C9, at decimals "19": the indexer is unchanged; and at "ABCD" with
decimals "2" the entry added has Decimal at most 18. -/
theorem C9_decimals_in_range_witness :
    (ProcessDeploy conf0 asciiTickerKey (decodeAs (deployBody "ABCD" "1000" "100" "19" "")) emptyIndexer
        (eventAt "alice" 800000 1 "k1")).1 = emptyIndexer ∧
    ∀ ti, (ProcessDeploy conf0 asciiTickerKey (decodeAs (deployBody "ABCD" "1000" "100" "2" "")) emptyIndexer
        (eventAt "alice" 800000 1 "k1")).1.InscriptionsTickerInfoMap "abcd" = some ti →
      ti.Deploy.Decimal ≤ 18 :=
  ⟨(C9_decimals_in_range conf0 asciiTickerKey (decodeAs (deployBody "ABCD" "1000" "100" "19" "")) emptyIndexer
      (eventAt "alice" 800000 1 "k1")).1 (deployBody "ABCD" "1000" "100" "19" "") rfl (by decide),
    fun ti h =>
      (C9_decimals_in_range conf0 asciiTickerKey (decodeAs (deployBody "ABCD" "1000" "100" "2" "")) emptyIndexer
        (eventAt "alice" 800000 1 "k1")).2 "abcd" ti h (by
          intro h'
          have : (none : Option BRC20TokenInfo) = some ti := h'
          cases this)⟩

/-- C10: for a deploy with valid decimals d, if the max field or the limit
field fails to parse at scale d, is negative, exceeds the amount ceiling, or
is zero while the ticker is not self-mint, the indexer is unchanged (nothing
is registered); and every registry entry that `ProcessDeploy` adds or
replaces has 0 < Max <= ceiling and 0 < Limit <= ceiling at its scale. -/
theorem C10_max_and_limit_in_range (conf : Conf)
    (GetValidUniqueLowerTickerTicker : String → Option String)
    (Unmarshal : List UInt8 → Option InscriptionBRC20DeployContent)
    (g : BRC20ModuleIndexer) (data : InscriptionBRC20Data) :
    (∀ body d, Unmarshal data.ContentBody = some body →
      ParseUint body.BRC20Decimal = some d → d ≤ 18 →
      (refusedAmount body.BRC20Max d (initializeTickInfo body data).SelfMint ∨
        refusedAmount body.BRC20Limit d (initializeTickInfo body data).SelfMint) →
      (ProcessDeploy conf GetValidUniqueLowerTickerTicker Unmarshal g data).1 = g) ∧
    (∀ t ti, (ProcessDeploy conf GetValidUniqueLowerTickerTicker Unmarshal g data).1.InscriptionsTickerInfoMap t = some ti →
      g.InscriptionsTickerInfoMap t ≠ some ti →
      ∃ mx lm, ti.Deploy.Max = some mx ∧ ti.Deploy.Limit = some lm ∧
        mx.scale = ti.Deploy.Decimal ∧ lm.scale = ti.Deploy.Decimal ∧
        0 < mx.mantissa ∧ mx.mantissa ≤ decimal.ceilingMantissa ti.Deploy.Decimal ∧
        0 < lm.mantissa ∧ lm.mantissa ≤ decimal.ceilingMantissa ti.Deploy.Decimal) := by
  rcases ProcessDeploy_cases conf GetValidUniqueLowerTickerTicker Unmarshal g data with h | ⟨body, t0, tinfo, h1, _, _, h4, h5⟩
  · refine ⟨fun _ _ _ _ _ _ => h, ?_⟩
    intro t ti hti hne
    rw [h] at hti
    exact absurd hti hne
  · obtain ⟨d, mx, lm, hd, hd18, hm, hm0, hmc, hmz, hl, hl0, hlc, hlz, hT⟩ :=
      validateTickDetails_ok _ _ _ h4
    have hsx := NewDecimalFromString_scale _ _ _ hm
    have hsl := NewDecimalFromString_scale _ _ _ hl
    rw [hsx] at hmc
    rw [hsl] at hlc
    refine ⟨?_, ?_⟩
    · intro body' d' hb hd' _ hbad
      rw [h1] at hb
      cases hb
      rw [(initializeTickInfo_Data body data).1, hd'] at hd
      cases hd
      rw [(initializeTickInfo_Data body data).2.1] at hl
      exfalso
      rcases hbad with hbad | hbad
      · unfold refusedAmount at hbad
        rw [hm] at hbad
        rcases hbad with hb1 | hb1 | ⟨hb1, hb2⟩
        · exact absurd hb1 (not_lt.mpr hm0)
        · exact absurd hb1 (not_lt.mpr hmc)
        · rw [hmz hb1] at hb2; cases hb2
      · unfold refusedAmount at hbad
        rw [hl] at hbad
        rcases hbad with hb1 | hb1 | ⟨hb1, hb2⟩
        · exact absurd hb1 (not_lt.mpr hl0)
        · exact absurd hb1 (not_lt.mpr hlc)
        · rw [hlz hb1] at hb2; cases hb2
    · intro t ti hti hne
      rw [h5] at hti
      obtain ⟨ti0, hdep, hreg, hother⟩ := registry_after_accept g body data t0 tinfo
      by_cases ht : t = t0
      · subst ht
        simp only [] at hti
        rw [hreg] at hti
        cases hti
        rw [hdep, hT]
        refine ⟨effectiveAmount mx, effectiveAmount lm, rfl, rfl, ?_, ?_, ?_, ?_, ?_, ?_⟩
        · unfold effectiveAmount; split <;> simp [decimal.Decimal.GetMaxUint64, hsx]
        · unfold effectiveAmount; split <;> simp [decimal.Decimal.GetMaxUint64, hsl]
        · unfold effectiveAmount
          split
          · simpa [decimal.Decimal.GetMaxUint64] using ceilingMantissa_pos mx.scale
          · exact lt_of_le_of_ne hm0 (Ne.symm ‹_›)
        · unfold effectiveAmount
          split
          · simp [decimal.Decimal.GetMaxUint64, hsx]
          · exact hmc
        · unfold effectiveAmount
          split
          · simpa [decimal.Decimal.GetMaxUint64] using ceilingMantissa_pos lm.scale
          · exact lt_of_le_of_ne hl0 (Ne.symm ‹_›)
        · unfold effectiveAmount
          split
          · simp [decimal.Decimal.GetMaxUint64, hsl]
          · exact hlc
      · simp only [] at hti
        rw [hother t ht] at hti
        exact absurd hti hne

/-- C10, at "ABCD" with max "0" and 2 decimals (zero, not self-mint): the
indexer is unchanged; and at max "1000", limit "100" the entry added has
0 < Max <= ceiling and 0 < Limit <= ceiling. -/
theorem C10_max_and_limit_in_range_witness :
    (ProcessDeploy conf0 asciiTickerKey (decodeAs (deployBody "ABCD" "0" "100" "2" "")) emptyIndexer
        (eventAt "alice" 800000 1 "k1")).1 = emptyIndexer ∧
    ∀ ti, (ProcessDeploy conf0 asciiTickerKey (decodeAs (deployBody "ABCD" "1000" "100" "2" "")) emptyIndexer
        (eventAt "alice" 800000 1 "k1")).1.InscriptionsTickerInfoMap "abcd" = some ti →
      ∃ mx lm, ti.Deploy.Max = some mx ∧ ti.Deploy.Limit = some lm ∧
        mx.scale = ti.Deploy.Decimal ∧ lm.scale = ti.Deploy.Decimal ∧
        0 < mx.mantissa ∧ mx.mantissa ≤ decimal.ceilingMantissa ti.Deploy.Decimal ∧
        0 < lm.mantissa ∧ lm.mantissa ≤ decimal.ceilingMantissa ti.Deploy.Decimal :=
  ⟨(C10_max_and_limit_in_range conf0 asciiTickerKey (decodeAs (deployBody "ABCD" "0" "100" "2" "")) emptyIndexer
      (eventAt "alice" 800000 1 "k1")).1 (deployBody "ABCD" "0" "100" "2" "") 2 rfl (by decide)
      (by decide) (Or.inl (Or.inr (Or.inr ⟨by decide, by decide⟩))),
    fun ti h =>
      (C10_max_and_limit_in_range conf0 asciiTickerKey (decodeAs (deployBody "ABCD" "1000" "100" "2" ""))
        emptyIndexer (eventAt "alice" 800000 1 "k1")).2 "abcd" ti h (by
          intro h'
          have : (none : Option BRC20TokenInfo) = some ti := h'
          cases this)⟩

/-! ## The state an applied deploy leaves -/

/-- The two outcomes of `ProcessDeploy`, with the applied state named. -/
theorem ProcessDeploy_untouched_or_applied (conf : Conf)
    (GetValidUniqueLowerTickerTicker : String → Option String)
    (Unmarshal : List UInt8 → Option InscriptionBRC20DeployContent)
    (g : BRC20ModuleIndexer) (data : InscriptionBRC20Data) :
    (ProcessDeploy conf GetValidUniqueLowerTickerTicker Unmarshal g data).1 = g ∨
    ∃ body t tinfo, Unmarshal data.ContentBody = some body ∧
      GetValidUniqueLowerTickerTicker body.BRC20Tick = some t ∧
      validateTicker conf g body t data = none ∧
      validateTickDetails (initializeTickInfo body data) body = Except.ok tinfo ∧
      ProcessDeploy conf GetValidUniqueLowerTickerTicker Unmarshal g data = (applied g body data t tinfo, none) := by
  rcases ProcessDeploy_cases conf GetValidUniqueLowerTickerTicker Unmarshal g data with h | ⟨body, t, tinfo, h1, h2, h3, h4, h5⟩
  · exact Or.inl h
  · exact Or.inr ⟨body, t, tinfo, h1, h2, h3, h4, h5⟩

theorem ProcessDeploy_EnableHistory (conf : Conf)
    (GetValidUniqueLowerTickerTicker : String → Option String)
    (Unmarshal : List UInt8 → Option InscriptionBRC20DeployContent)
    (g : BRC20ModuleIndexer) (data : InscriptionBRC20Data) :
    (ProcessDeploy conf GetValidUniqueLowerTickerTicker Unmarshal g data).1.EnableHistory = g.EnableHistory := by
  rcases ProcessDeploy_untouched_or_applied conf GetValidUniqueLowerTickerTicker Unmarshal g data with
    h | ⟨body, t, tinfo, _, _, _, _, h5⟩
  · rw [h]
  · rw [h5]; exact (applied_fields g body data t tinfo).1


theorem ProcessDeploy_AllHistory_off (conf : Conf)
    (GetValidUniqueLowerTickerTicker : String → Option String)
    (Unmarshal : List UInt8 → Option InscriptionBRC20DeployContent)
    (g : BRC20ModuleIndexer) (data : InscriptionBRC20Data) (hoff : g.EnableHistory = false) :
    (ProcessDeploy conf GetValidUniqueLowerTickerTicker Unmarshal g data).1.AllHistory = g.AllHistory := by
  rcases ProcessDeploy_untouched_or_applied conf GetValidUniqueLowerTickerTicker Unmarshal g data with
    h | ⟨body, t, tinfo, _, _, _, _, h5⟩
  · rw [h]
  · rw [h5]
    simp [(applied_fields g body data t tinfo).2.2.2.2.1, hoff]

theorem processDeploys_AllHistory_off (conf : Conf)
    (GetValidUniqueLowerTickerTicker : String → Option String)
    (Unmarshal : List UInt8 → Option InscriptionBRC20DeployContent)
    (events : List InscriptionBRC20Data) :
    ∀ g : BRC20ModuleIndexer, g.EnableHistory = false →
      (processDeploys conf GetValidUniqueLowerTickerTicker Unmarshal g events).AllHistory = g.AllHistory := by
  induction events with
  | nil => intro g _; rfl
  | cons e es ih =>
    intro g hoff
    have h1 := ih (ProcessDeploy conf GetValidUniqueLowerTickerTicker Unmarshal g e).1
      (by rw [ProcessDeploy_EnableHistory]; exact hoff)
    simp only [processDeploys, List.foldl_cons] at h1 ⊢
    rw [h1, ProcessDeploy_AllHistory_off conf GetValidUniqueLowerTickerTicker Unmarshal g e hoff]

/-- C11: when the ticker is not registered and a deploy passes all
validation (decoded body, valid ticker, gates 1 to 4, and
`validateTickDetails` completing the TickInfo), `ProcessDeploy` returns nil
and afterwards (i) the registry maps the ticker's unique lower-case key, the
one `GetValidUniqueLowerTickerTicker` returns, to the new TickInfo, (ii) `UserTokensBalanceData[creator][ticker]` and
`TokenUsersBalanceData[ticker][creator]` hold one and the same entry, with
zero available and zero overall balance, and (iii) the valid-data index maps
the event's `CreateIdxKey` to the deploy data. -/
theorem C11_accepted_deploy_effects (conf : Conf)
    (GetValidUniqueLowerTickerTicker : String → Option String)
    (Unmarshal : List UInt8 → Option InscriptionBRC20DeployContent)
    (g : BRC20ModuleIndexer) (data : InscriptionBRC20Data)
    (body : InscriptionBRC20DeployContent) (t : String) (tinfo : InscriptionBRC20TickInfo)
    (hbody : Unmarshal data.ContentBody = some body)
    (htick : GetValidUniqueLowerTickerTicker body.BRC20Tick = some t)
    (hg1 : ¬ selfMintGateFails conf body data)
    (hg2 : ¬ allowListGateFails conf t)
    (hg3 : ¬ alreadyRegistered g t)
    (hg4 : body.BRC20Max ≠ "")
    (hok : validateTickDetails (initializeTickInfo body data) body = Except.ok tinfo) :
    (ProcessDeploy conf GetValidUniqueLowerTickerTicker Unmarshal g data).2 = none ∧
    (∃ ti, (ProcessDeploy conf GetValidUniqueLowerTickerTicker Unmarshal g data).1.InscriptionsTickerInfoMap t = some ti ∧
      ti.Deploy = tinfo ∧ ti.Ticker = body.BRC20Tick) ∧
    (∃ b, userTokenEntry (ProcessDeploy conf GetValidUniqueLowerTickerTicker Unmarshal g data).1 data.PkScript t = some b ∧
      tokenUserEntry (ProcessDeploy conf GetValidUniqueLowerTickerTicker Unmarshal g data).1 t data.PkScript = some b ∧
      amountOf b.AvailableBalance = 0 ∧ amountOf b.OverallBalance = 0) ∧
    (ProcessDeploy conf GetValidUniqueLowerTickerTicker Unmarshal g data).1.InscriptionsValidBRC20DataMap data.CreateIdxKey =
      some tinfo.Data := by
  -- gates 1 to 3 do not enter the proof: `validateTicker` answers nil
  -- whether or not they fire
  have _ := hg1
  have _ := hg2
  have _ := hg3
  have hacc : ProcessDeploy conf GetValidUniqueLowerTickerTicker Unmarshal g data = (applied g body data t tinfo, none) :=
    ProcessDeploy_accept conf GetValidUniqueLowerTickerTicker Unmarshal g data body t tinfo hbody htick
      (validateTicker_eq_none conf g body t data hg4) hok
  rw [hacc]
  refine ⟨rfl, ?_, ?_, ?_⟩
  · exact ⟨_, by rw [applied_registry]; exact GoMap.set_same _ _ _, rfl, rfl⟩
  · refine ⟨deployBalance g body data, ?_, ?_, rfl, rfl⟩
    · rw [applied_userTokenEntry]; simp
    · rw [applied_tokenUserEntry]; simp
  · simp only []
    rw [(applied_fields g body data t tinfo).2.2.2.1]
    exact GoMap.set_same _ _ _

/-- C11, at the deploy of "ABCD" (max 1000, limit 100, 2 decimals) by alice
on the empty indexer. -/
theorem C11_accepted_deploy_effects_witness :
    (ProcessDeploy conf0 asciiTickerKey (decodeAs (deployBody "ABCD" "1000" "100" "2" "")) emptyIndexer
        (eventAt "alice" 800000 1 "k1")).2 = none ∧
    (∃ b, userTokenEntry (ProcessDeploy conf0 asciiTickerKey (decodeAs (deployBody "ABCD" "1000" "100" "2" ""))
          emptyIndexer (eventAt "alice" 800000 1 "k1")).1 "alice" "abcd" = some b ∧
      tokenUserEntry (ProcessDeploy conf0 asciiTickerKey (decodeAs (deployBody "ABCD" "1000" "100" "2" ""))
          emptyIndexer (eventAt "alice" 800000 1 "k1")).1 "abcd" "alice" = some b ∧
      amountOf b.AvailableBalance = 0 ∧ amountOf b.OverallBalance = 0) ∧
    (ProcessDeploy conf0 asciiTickerKey (decodeAs (deployBody "ABCD" "1000" "100" "2" "")) emptyIndexer
        (eventAt "alice" 800000 1 "k1")).1.InscriptionsValidBRC20DataMap "k1" =
      some { Operation := "deploy", BRC20Tick := "ABCD", BRC20Max := "1000",
             BRC20Limit := "100", BRC20Minted := "0", BRC20Decimal := "2",
             BRC20SelfMint := "" } :=
  have h := C11_accepted_deploy_effects conf0 asciiTickerKey (decodeAs (deployBody "ABCD" "1000" "100" "2" ""))
    emptyIndexer (eventAt "alice" 800000 1 "k1") (deployBody "ABCD" "1000" "100" "2" "") "abcd"
    { Ticker := "ABCD"
      Data := { Operation := "deploy", BRC20Tick := "ABCD", BRC20Max := "1000",
                BRC20Limit := "100", BRC20Minted := "0", BRC20Decimal := "2",
                BRC20SelfMint := "" }
      SelfMint := false, Decimal := 2, Max := some ⟨100000, 2⟩, Limit := some ⟨10000, 2⟩
      InscriptionNumberStart := 1, Height := 800000, PkScript := "alice" }
    rfl (by decide) (by decide) (by decide) (by decide) (by decide) (by rfl)
  ⟨h.1, h.2.2.1, h.2.2.2⟩

/-- C12: with history disabled, `ProcessDeploy` leaves `AllHistory`, the
history store and the per-user history lists unchanged, and every per-ticker
and per-balance history list after the call is the one before the call or is
empty; so after any sequence of deploy events `AllHistory` is what it was,
of length zero when it started empty. -/
theorem C12_history_disabled_records_nothing (conf : Conf)
    (GetValidUniqueLowerTickerTicker : String → Option String)
    (Unmarshal : List UInt8 → Option InscriptionBRC20DeployContent)
    (g : BRC20ModuleIndexer) (data : InscriptionBRC20Data)
    (hoff : g.EnableHistory = false) :
    (ProcessDeploy conf GetValidUniqueLowerTickerTicker Unmarshal g data).1.AllHistory = g.AllHistory ∧
    (ProcessDeploy conf GetValidUniqueLowerTickerTicker Unmarshal g data).1.HistoryData = g.HistoryData ∧
    (ProcessDeploy conf GetValidUniqueLowerTickerTicker Unmarshal g data).1.UserAllHistory = g.UserAllHistory ∧
    (∀ t ti, (ProcessDeploy conf GetValidUniqueLowerTickerTicker Unmarshal g data).1.InscriptionsTickerInfoMap t = some ti →
      g.InscriptionsTickerInfoMap t = some ti ∨ ti.History = []) ∧
    (∀ a t b, userTokenEntry (ProcessDeploy conf GetValidUniqueLowerTickerTicker Unmarshal g data).1 a t = some b →
      userTokenEntry g a t = some b ∨ b.History = []) ∧
    (∀ a t b, tokenUserEntry (ProcessDeploy conf GetValidUniqueLowerTickerTicker Unmarshal g data).1 t a = some b →
      tokenUserEntry g t a = some b ∨ b.History = []) ∧
    (∀ events, (processDeploys conf GetValidUniqueLowerTickerTicker Unmarshal g events).AllHistory = g.AllHistory ∧
      (g.AllHistory = [] → (processDeploys conf GetValidUniqueLowerTickerTicker Unmarshal g events).AllHistory.length = 0)) := by
  have hseq : ∀ events, (processDeploys conf GetValidUniqueLowerTickerTicker Unmarshal g events).AllHistory = g.AllHistory ∧
      (g.AllHistory = [] → (processDeploys conf GetValidUniqueLowerTickerTicker Unmarshal g events).AllHistory.length = 0) := by
    intro events
    have h := processDeploys_AllHistory_off conf GetValidUniqueLowerTickerTicker Unmarshal events g hoff
    exact ⟨h, fun h0 => by rw [h, h0]; rfl⟩
  rcases ProcessDeploy_untouched_or_applied conf GetValidUniqueLowerTickerTicker Unmarshal g data with
    h | ⟨body, t0, tinfo, _, _, _, _, h5⟩
  · rw [h]
    exact ⟨rfl, rfl, rfl, fun _ _ h => Or.inl h, fun _ _ _ h => Or.inl h,
      fun _ _ _ h => Or.inl h, hseq⟩
  · rw [h5]
    obtain ⟨_, _, _, _, hA, hD, hU⟩ := applied_fields g body data t0 tinfo
    refine ⟨?_, ?_, ?_, ?_, ?_, ?_, hseq⟩
    · simp [hA, hoff]
    · simp [hD, hoff]
    · simp [hU, hoff]
    · intro t ti hti
      simp only [] at hti
      rw [applied_registry] at hti
      by_cases ht : t = t0
      · subst ht
        rw [GoMap.set_same] at hti
        cases hti
        right
        simp [hoff]
      · rw [GoMap.set_other _ _ _ _ ht] at hti
        exact Or.inl hti
    · intro a t b hb
      simp only [] at hb
      rw [applied_userTokenEntry] at hb
      split at hb
      · cases hb
        right
        simp [deployBalance, hoff]
      · exact Or.inl hb
    · intro a t b hb
      simp only [] at hb
      rw [applied_tokenUserEntry] at hb
      split at hb
      · split at hb
        · cases hb
          right
          simp [deployBalance, hoff]
        · cases hb
      · exact Or.inl hb

/-- C12, on the empty indexer with history off: after two deploy events of
"ABCD" the history log has length zero. -/
theorem C12_history_disabled_records_nothing_witness :
    (processDeploys conf0 asciiTickerKey (decodeAs (deployBody "ABCD" "1000" "100" "2" "")) emptyIndexer
      [eventAt "alice" 800000 1 "k1", eventAt "bob" 800001 2 "k2"]).AllHistory.length = 0 ∧
    (ProcessDeploy conf0 asciiTickerKey (decodeAs (deployBody "ABCD" "1000" "100" "2" "")) emptyIndexer
      (eventAt "alice" 800000 1 "k1")).1.AllHistory = [] :=
  have h := C12_history_disabled_records_nothing conf0 asciiTickerKey
    (decodeAs (deployBody "ABCD" "1000" "100" "2" "")) emptyIndexer
    (eventAt "alice" 800000 1 "k1") rfl
  ⟨(h.2.2.2.2.2.2 _).2 rfl, h.1⟩

/-- C13 (the code departs from the claim): with history enabled and "abcd"
registered (history log of length 1), a second deploy of "abcd", which gate 3
should reject, lengthens `AllHistory` to 2 instead of leaving it at 1. -/
theorem C13_rejected_redeploy_appends_history :
    historyIndexerWithAbcd.EnableHistory = true ∧
    historyIndexerWithAbcd.AllHistory.length = 1 ∧
    alreadyRegistered historyIndexerWithAbcd "abcd" ∧
    (ProcessDeploy conf0 asciiTickerKey (decodeAs (deployBody "abcd" "5" "1" "0" "")) historyIndexerWithAbcd
        (eventAt "bob" 800001 2 "k2")).1.AllHistory.length = 2 := by
  decide

/-- C15: an event whose content fails to decode, or whose ticker
`GetValidUniqueLowerTickerTicker` refuses, makes `ProcessDeploy` return nil
and leave the whole indexer unchanged. -/
theorem C15_malformed_input_is_skipped (conf : Conf)
    (GetValidUniqueLowerTickerTicker : String → Option String)
    (Unmarshal : List UInt8 → Option InscriptionBRC20DeployContent)
    (g : BRC20ModuleIndexer) (data : InscriptionBRC20Data)
    (hbad : Unmarshal data.ContentBody = none ∨
      ∃ body, Unmarshal data.ContentBody = some body ∧
        GetValidUniqueLowerTickerTicker body.BRC20Tick = none) :
    ProcessDeploy conf GetValidUniqueLowerTickerTicker Unmarshal g data = (g, none) := by
  rcases hbad with h | ⟨body, h1, h2⟩
  · simp [ProcessDeploy, h]
  · simp [ProcessDeploy, h1, h2]

/-- C15, at a content that does not decode and at the 7-byte ticker
"TOOLONG", on the indexer that holds "abcd". -/
theorem C15_malformed_input_is_skipped_witness :
    ProcessDeploy conf0 asciiTickerKey (fun _ => none) indexerWithAbcd (eventAt "bob" 800001 2 "k2") =
      (indexerWithAbcd, none) ∧
    ProcessDeploy conf0 asciiTickerKey (decodeAs (deployBody "TOOLONG" "1000" "100" "2" "")) indexerWithAbcd
        (eventAt "bob" 800001 2 "k2") = (indexerWithAbcd, none) :=
  ⟨C15_malformed_input_is_skipped conf0 asciiTickerKey (fun _ => none) indexerWithAbcd
      (eventAt "bob" 800001 2 "k2") (Or.inl rfl),
    C15_malformed_input_is_skipped conf0 asciiTickerKey (decodeAs (deployBody "TOOLONG" "1000" "100" "2" ""))
      indexerWithAbcd (eventAt "bob" 800001 2 "k2")
      (Or.inr ⟨deployBody "TOOLONG" "1000" "100" "2" "", rfl, by decide⟩)⟩


theorem effectiveAmount_pos (x : decimal.Decimal) (h0 : 0 ≤ x.mantissa) :
    0 < (effectiveAmount x).mantissa := by
  unfold effectiveAmount
  split
  · simpa [decimal.Decimal.GetMaxUint64] using ceilingMantissa_pos x.scale
  · exact lt_of_le_of_ne h0 (Ne.symm ‹_›)

theorem amount_pos (x : decimal.Decimal) (h : 0 < x.mantissa) : 0 < x.amount := by
  unfold decimal.Decimal.amount
  have h1 : (0 : ℚ) < (x.mantissa : ℚ) := by exact_mod_cast h
  positivity

/-- The entries of `indexerWithHolder`: bob's entry for "abcd", in both
indices, and nothing else. -/
theorem indexerWithHolder_entries (a t : String) :
    userTokenEntry indexerWithHolder a t =
      (if a = "bob" ∧ t = "abcd" then some bobEntry else none) ∧
    tokenUserEntry indexerWithHolder t a =
      (if a = "bob" ∧ t = "abcd" then some bobEntry else none) := by
  unfold userTokenEntry tokenUserEntry indexerWithHolder emptyIndexer
  by_cases ha : a = "bob" <;> by_cases ht : t = "abcd" <;>
    simp [GoMap.set, GoMap.empty, ha, ht]

theorem balanceInvariant_bobEntry : balanceInvariant bobEntry := by
  unfold balanceInvariant bobEntry amountOf decimal.Decimal.amount
  norm_num

/-- C14 (the code departs from the claim): after alice's deploy of "ABCD"
her balance entry for "abcd" is in `TokenUsersBalanceData`; bob's second
deploy of "abcd", which gate 3 should reject, replaces the holder map of
"abcd", and alice's entry is no longer in that index. -/
theorem C14_redeploy_drops_holder_entry :
    alreadyRegistered indexerWithAbcd "abcd" ∧
    tokenUserEntry indexerWithAbcd "abcd" "alice" =
      some { Ticker := "ABCD", PkScript := "alice", AvailableBalance := none,
             OverallBalance := none, History := [] } ∧
    tokenUserEntry (ProcessDeploy conf0 asciiTickerKey (decodeAs (deployBody "abcd" "5" "1" "0" ""))
        indexerWithAbcd (eventAt "bob" 800001 2 "k2")).1 "abcd" "alice" = none := by
  decide

/-- C16: if every registered ticker has minted-so-far ≤ max before
`ProcessDeploy`, every registered ticker has it after the call; an entry the
call adds or replaces has minted-so-far 0 and max > 0; and the entry of any
ticker other than the one the event deploys is unchanged. -/
theorem C16_supply_invariant_preserved (conf : Conf)
    (GetValidUniqueLowerTickerTicker : String → Option String)
    (Unmarshal : List UInt8 → Option InscriptionBRC20DeployContent)
    (g : BRC20ModuleIndexer) (data : InscriptionBRC20Data)
    (hinv : ∀ t ti, g.InscriptionsTickerInfoMap t = some ti → supplyInvariant ti.Deploy) :
    (∀ t ti, (ProcessDeploy conf GetValidUniqueLowerTickerTicker Unmarshal g data).1.InscriptionsTickerInfoMap t = some ti →
      supplyInvariant ti.Deploy) ∧
    (∀ t ti, (ProcessDeploy conf GetValidUniqueLowerTickerTicker Unmarshal g data).1.InscriptionsTickerInfoMap t = some ti →
      g.InscriptionsTickerInfoMap t ≠ some ti →
      mintedSoFar ti.Deploy = some ⟨0, ti.Deploy.Decimal⟩ ∧
      ∃ mx, ti.Deploy.Max = some mx ∧ 0 < mx.amount) ∧
    (∀ t, (∀ body, Unmarshal data.ContentBody = some body →
        GetValidUniqueLowerTickerTicker body.BRC20Tick ≠ some t) →
      (ProcessDeploy conf GetValidUniqueLowerTickerTicker Unmarshal g data).1.InscriptionsTickerInfoMap t =
        g.InscriptionsTickerInfoMap t) := by
  rcases ProcessDeploy_untouched_or_applied conf GetValidUniqueLowerTickerTicker Unmarshal g data with
    h | ⟨body, t0, tinfo, h1, h2, _, h4, h5⟩
  · rw [h]
    exact ⟨hinv, fun t ti h hne => absurd h hne, fun _ _ => rfl⟩
  · obtain ⟨d, mx, lm, _, _, _, hm0, _, _, _, _, _, _, hT⟩ := validateTickDetails_ok _ _ _ h4
    have hminted : mintedSoFar tinfo = some ⟨0, tinfo.Decimal⟩ := by
      rw [hT]
      simp only [mintedSoFar, (initializeTickInfo_Data body data).2.2.2.1]
      exact NewDecimalFromString_zero d
    have hmax : tinfo.Max = some (effectiveAmount mx) := by rw [hT]
    have hpos : 0 < (effectiveAmount mx).amount := amount_pos _ (effectiveAmount_pos mx hm0)
    have hnew : supplyInvariant tinfo := by
      unfold supplyInvariant
      rw [hminted, hmax]
      simp only []
      have hz : (⟨0, tinfo.Decimal⟩ : decimal.Decimal).amount = 0 := by
        simp [decimal.Decimal.amount]
      rw [hz]
      exact hpos.le
    rw [h5]
    simp only []
    rw [applied_registry]
    refine ⟨?_, ?_, ?_⟩
    · intro t ti hti
      by_cases ht : t = t0
      · subst ht
        rw [GoMap.set_same] at hti
        cases hti
        exact hnew
      · rw [GoMap.set_other _ _ _ _ ht] at hti
        exact hinv t ti hti
    · intro t ti hti hne
      by_cases ht : t = t0
      · subst ht
        rw [GoMap.set_same] at hti
        cases hti
        exact ⟨hminted, _, hmax, hpos⟩
      · rw [GoMap.set_other _ _ _ _ ht] at hti
        exact absurd hti hne
    · intro t hother
      have hne : t ≠ t0 := by
        rintro rfl
        exact hother body h1 h2
      exact GoMap.set_other _ _ _ _ hne

/-- C16, on the indexer that holds "abcd" (itself the result of a deploy on
the empty indexer) and the deploy of "ORDI": both registered tickers have
minted-so-far ≤ max. -/
theorem C16_supply_invariant_preserved_witness :
    (∃ ti, (ProcessDeploy conf0 asciiTickerKey (decodeAs (deployBody "ORDI" "21000000" "1000" "18" ""))
        indexerWithAbcd (eventAt "bob" 800001 2 "k2")).1.InscriptionsTickerInfoMap "abcd" =
          some ti ∧ supplyInvariant ti.Deploy) ∧
    (∃ ti, (ProcessDeploy conf0 asciiTickerKey (decodeAs (deployBody "ORDI" "21000000" "1000" "18" ""))
        indexerWithAbcd (eventAt "bob" 800001 2 "k2")).1.InscriptionsTickerInfoMap "ordi" =
          some ti ∧ supplyInvariant ti.Deploy) := by
  have h := (C16_supply_invariant_preserved conf0 asciiTickerKey
    (decodeAs (deployBody "ORDI" "21000000" "1000" "18" ""))
    indexerWithAbcd (eventAt "bob" 800001 2 "k2")
    (C16_supply_invariant_preserved conf0 asciiTickerKey (decodeAs (deployBody "ABCD" "1000" "100" "2" ""))
      emptyIndexer (eventAt "alice" 800000 1 "k1")
      (fun _ _ h => absurd h (by simp [emptyIndexer, GoMap.empty]))).1).1
  refine ⟨?_, ?_⟩
  · obtain ⟨ti, hti⟩ := Option.isSome_iff_exists.1
      (by decide : ((ProcessDeploy conf0 asciiTickerKey (decodeAs (deployBody "ORDI" "21000000" "1000" "18" ""))
        indexerWithAbcd (eventAt "bob" 800001 2 "k2")).1.InscriptionsTickerInfoMap
          "abcd").isSome = true)
    exact ⟨ti, hti, h _ _ hti⟩
  · obtain ⟨ti, hti⟩ := Option.isSome_iff_exists.1
      (by decide : ((ProcessDeploy conf0 asciiTickerKey (decodeAs (deployBody "ORDI" "21000000" "1000" "18" ""))
        indexerWithAbcd (eventAt "bob" 800001 2 "k2")).1.InscriptionsTickerInfoMap
          "ordi").isSome = true)
    exact ⟨ti, hti, h _ _ hti⟩

/-- C17: if every balance entry reachable from either balance index has
0 ≤ available ≤ overall before `ProcessDeploy`, every entry reachable from
either index has it after the call. -/
theorem C17_balance_invariant_preserved (conf : Conf)
    (GetValidUniqueLowerTickerTicker : String → Option String)
    (Unmarshal : List UInt8 → Option InscriptionBRC20DeployContent)
    (g : BRC20ModuleIndexer) (data : InscriptionBRC20Data)
    (hU : ∀ a t b, userTokenEntry g a t = some b → balanceInvariant b)
    (hT : ∀ t a b, tokenUserEntry g t a = some b → balanceInvariant b) :
    (∀ a t b, userTokenEntry (ProcessDeploy conf GetValidUniqueLowerTickerTicker Unmarshal g data).1 a t = some b →
      balanceInvariant b) ∧
    (∀ t a b, tokenUserEntry (ProcessDeploy conf GetValidUniqueLowerTickerTicker Unmarshal g data).1 t a = some b →
      balanceInvariant b) := by
  rcases ProcessDeploy_untouched_or_applied conf GetValidUniqueLowerTickerTicker Unmarshal g data with
    h | ⟨body, t0, tinfo, _, _, _, _, h5⟩
  · rw [h]; exact ⟨hU, hT⟩
  · have hnew : balanceInvariant (deployBalance g body data) := by
      simp [balanceInvariant, deployBalance, amountOf]
    rw [h5]
    refine ⟨?_, ?_⟩
    · intro a t b hb
      simp only [] at hb
      rw [applied_userTokenEntry] at hb
      split at hb
      · cases hb; exact hnew
      · exact hU a t b hb
    · intro t a b hb
      simp only [] at hb
      rw [applied_tokenUserEntry] at hb
      split at hb
      · split at hb
        · cases hb; exact hnew
        · cases hb
      · exact hT t a b hb

/-- C17, on the indexer in which bob holds 50.00 of 100.00 "abcd" and the
deploy of "ORDI" by alice. -/
theorem C17_balance_invariant_preserved_witness :
    (∀ a t b, userTokenEntry (ProcessDeploy conf0 asciiTickerKey
        (decodeAs (deployBody "ORDI" "1000" "100" "2" "")) indexerWithHolder
        (eventAt "alice" 800000 1 "k1")).1 a t = some b → balanceInvariant b) ∧
    (∀ t a b, tokenUserEntry (ProcessDeploy conf0 asciiTickerKey
        (decodeAs (deployBody "ORDI" "1000" "100" "2" "")) indexerWithHolder
        (eventAt "alice" 800000 1 "k1")).1 t a = some b → balanceInvariant b) :=
  C17_balance_invariant_preserved conf0 asciiTickerKey (decodeAs (deployBody "ORDI" "1000" "100" "2" ""))
    indexerWithHolder (eventAt "alice" 800000 1 "k1")
    (by
      intro a t b hb
      rw [(indexerWithHolder_entries a t).1] at hb
      split at hb
      · cases hb; exact balanceInvariant_bobEntry
      · cases hb)
    (by
      intro t a b hb
      rw [(indexerWithHolder_entries a t).2] at hb
      split at hb
      · cases hb; exact balanceInvariant_bobEntry
      · cases hb)

/-- C18: for a deploy whose ticker is not 5 bytes long the self-mint flag is
ignored: the TickInfo has SelfMint false whatever the flag; if, at valid
decimals, its max or its limit is zero, the indexer is unchanged (nothing is
registered, no ceiling is substituted); and any entry the call adds or
replaces has SelfMint false. -/
theorem C18_only_five_byte_tickers_self_mint (conf : Conf)
    (GetValidUniqueLowerTickerTicker : String → Option String)
    (Unmarshal : List UInt8 → Option InscriptionBRC20DeployContent)
    (g : BRC20ModuleIndexer) (data : InscriptionBRC20Data)
    (body : InscriptionBRC20DeployContent)
    (hbody : Unmarshal data.ContentBody = some body)
    (hlen : len body.BRC20Tick ≠ 5) :
    (initializeTickInfo body data).SelfMint = false ∧
    (∀ d, ParseUint body.BRC20Decimal = some d →
      ((∃ mx, decimal.NewDecimalFromString body.BRC20Max d = some mx ∧ mx.mantissa = 0) ∨
        (∃ lm, decimal.NewDecimalFromString body.BRC20Limit d = some lm ∧ lm.mantissa = 0)) →
      (ProcessDeploy conf GetValidUniqueLowerTickerTicker Unmarshal g data).1 = g) ∧
    (∀ t ti, (ProcessDeploy conf GetValidUniqueLowerTickerTicker Unmarshal g data).1.InscriptionsTickerInfoMap t = some ti →
      g.InscriptionsTickerInfoMap t ≠ some ti → ti.Deploy.SelfMint = false) := by
  have hsm : (initializeTickInfo body data).SelfMint = false := by
    cases h : (initializeTickInfo body data).SelfMint
    · rfl
    · exact absurd ((initializeTickInfo_SelfMint body data).1 h).1 hlen
  refine ⟨hsm, ?_, ?_⟩
  · intro d hd hzero
    rcases ProcessDeploy_untouched_or_applied conf GetValidUniqueLowerTickerTicker Unmarshal g data with
      h | ⟨body', t0, tinfo, h1, _, _, h4, _⟩
    · exact h
    · exfalso
      rw [hbody] at h1
      cases h1
      obtain ⟨d', mx, lm, hd', _, hm, _, _, hmz, hl, _, _, hlz, _⟩ :=
        validateTickDetails_ok _ _ _ h4
      rw [(initializeTickInfo_Data body data).1, hd] at hd'
      cases hd'
      rw [(initializeTickInfo_Data body data).2.1] at hl
      rcases hzero with ⟨mx', hm', hz⟩ | ⟨lm', hl', hz⟩
      · rw [hm] at hm'
        cases hm'
        rw [hmz hz] at hsm
        cases hsm
      · rw [hl] at hl'
        cases hl'
        rw [hlz hz] at hsm
        cases hsm
  · intro t ti hti hne
    rcases ProcessDeploy_untouched_or_applied conf GetValidUniqueLowerTickerTicker Unmarshal g data with
      h | ⟨body', t0, tinfo, h1, _, _, h4, h5⟩
    · rw [h] at hti
      exact absurd hti hne
    · rw [hbody] at h1
      cases h1
      obtain ⟨_, _, _, _, _, _, _, _, _, _, _, _, _, hT⟩ := validateTickDetails_ok _ _ _ h4
      rw [h5] at hti
      simp only [] at hti
      rw [applied_registry] at hti
      by_cases ht : t = t0
      · subst ht
        rw [GoMap.set_same] at hti
        cases hti
        simp only []
        rw [hT]
        exact hsm
      · rw [GoMap.set_other _ _ _ _ ht] at hti
        exact absurd hti hne

/-- C18, at the 4-byte ticker "ABCD" with self-mint flag "true" and max "0":
SelfMint is false and the indexer is unchanged. -/
theorem C18_only_five_byte_tickers_self_mint_witness :
    (initializeTickInfo (deployBody "ABCD" "0" "100" "2" "true")
      (eventAt "alice" 900000 1 "k1")).SelfMint = false ∧
    (ProcessDeploy conf0 asciiTickerKey (decodeAs (deployBody "ABCD" "0" "100" "2" "true")) emptyIndexer
      (eventAt "alice" 900000 1 "k1")).1 = emptyIndexer :=
  have h := C18_only_five_byte_tickers_self_mint conf0 asciiTickerKey
    (decodeAs (deployBody "ABCD" "0" "100" "2" "true")) emptyIndexer
    (eventAt "alice" 900000 1 "k1") (deployBody "ABCD" "0" "100" "2" "true") rfl (by decide)
  ⟨h.1, h.2.1 2 (by decide) (Or.inl ⟨⟨0, 2⟩, by decide, rfl⟩)⟩

/-- The two balance indices stay mirror images under a deploy when no
address other than the creator holds an entry for the deployed ticker. -/
theorem mirrored_ProcessDeploy (conf : Conf)
    (GetValidUniqueLowerTickerTicker : String → Option String)
    (Unmarshal : List UInt8 → Option InscriptionBRC20DeployContent)
    (g : BRC20ModuleIndexer) (data : InscriptionBRC20Data)
    (hm : mirrored g)
    (hfresh : ∀ body t, Unmarshal data.ContentBody = some body →
      GetValidUniqueLowerTickerTicker body.BRC20Tick = some t →
      ∀ a, a ≠ data.PkScript → userTokenEntry g a t = none) :
    mirrored (ProcessDeploy conf GetValidUniqueLowerTickerTicker Unmarshal g data).1 := by
  rcases ProcessDeploy_untouched_or_applied conf GetValidUniqueLowerTickerTicker Unmarshal g data
    with h | ⟨body, t0, tinfo, h1, h2, _, _, h5⟩
  · rw [h]; exact hm
  · rw [h5]
    intro a t
    simp only []
    rw [applied_userTokenEntry, applied_tokenUserEntry]
    by_cases ht : t = t0
    · subst ht
      by_cases ha : a = data.PkScript
      · simp [ha]
      · simp [ha, hfresh body t h1 h2 a ha]
    · simp [ht, hm a t]

/-- C19 (the code departs from the claim): after alice's deploy of "ABCD" on
the empty indexer the two balance indices are mirror images; bob's second
deploy of "abcd", which gate 3 should reject, leaves alice's entry in
`UserTokensBalanceData` and takes it out of `TokenUsersBalanceData`, so the
indices are no longer mirror images. -/
theorem C19_redeploy_breaks_mirror :
    mirrored indexerWithAbcd ∧
    alreadyRegistered indexerWithAbcd "abcd" ∧
    userTokenEntry (ProcessDeploy conf0 asciiTickerKey (decodeAs (deployBody "abcd" "5" "1" "0" ""))
        indexerWithAbcd (eventAt "bob" 800001 2 "k2")).1 "alice" "abcd" =
      some { Ticker := "ABCD", PkScript := "alice", AvailableBalance := none,
             OverallBalance := none, History := [] } ∧
    tokenUserEntry (ProcessDeploy conf0 asciiTickerKey (decodeAs (deployBody "abcd" "5" "1" "0" ""))
        indexerWithAbcd (eventAt "bob" 800001 2 "k2")).1 "abcd" "alice" = none ∧
    ¬ mirrored (ProcessDeploy conf0 asciiTickerKey (decodeAs (deployBody "abcd" "5" "1" "0" ""))
        indexerWithAbcd (eventAt "bob" 800001 2 "k2")).1 := by
  refine ⟨?_, by decide, by decide, by decide, ?_⟩
  · exact mirrored_ProcessDeploy conf0 asciiTickerKey
      (decodeAs (deployBody "ABCD" "1000" "100" "2" "")) emptyIndexer
      (eventAt "alice" 800000 1 "k1") (fun _ _ => rfl) (fun _ _ _ _ _ _ => rfl)
  · intro h
    have h1 := h "alice" "abcd"
    revert h1
    decide

end Indexer
